import Mathlib

/-! # Rooming List Manager: the store and its route handlers

A shallow embedding of `src/backend/config/database.js` and of the route
handlers in `src/backend/routes/{data,roomingLists,bookings,events}.js`.

Modelling conventions.

* A table is the list of its rows in insertion order.  The schema of
  `initDatabase` is rendered by what an `INSERT`/`UPDATE` refuses: a number
  outside `INTEGER`, a text that is no date, a text too long for its
  `VARCHAR(n)` or holding the character NUL, a `NULL` in a `NOT NULL` column,
  a duplicate key, a reference to a missing row, and the two
  `CHECK (... IN ...)` constraints.
* A JSON member is a `Field`: missing, `null`, or a value.  Members for integer
  columns are integers, the others are strings.  Which date a text denotes is
  decided by the database, not by the repository: a text offered for a `DATE`
  column comes with the date the database reads in it (`DateText`).
  Identifiers in a route (`:id`) are `INTEGER` values.
* `created_at` is written by the store clock and is only returned or used to
  order the two list-all queries, which are not modelled; it is left out.
* `pool.query` runs one statement in its own implicit transaction (it is
  committed as soon as it returns).  `client.query` between `BEGIN` and
  `COMMIT`/`ROLLBACK` works on the committed rows plus the rows the open
  transaction has written; `nextval` of a sequence is never rolled back.
* A `SERIAL` column owns the sequence `<table>_<column>_seq`, spelled as the
  table and the column are; an identifier that a statement writes without
  quotes is folded to lower case before it is looked up.
* Requests are served one after the other.
-/

namespace RoomingListManager

/-! ## Rows (the tables of `initDatabase`) -/

/-- A `DATE` value: a calendar date. -/
structure Date where
  year : Nat
  month : Nat
  day : Nat
deriving DecidableEq, Repr

/-- Order of two dates. -/
def Date.le (a b : Date) : Prop :=
  a.year < b.year ∨
    (a.year = b.year ∧ (a.month < b.month ∨ (a.month = b.month ∧ a.day ≤ b.day)))

instance Date.decidableLe : DecidableRel Date.le :=
  fun a b => by unfold Date.le; infer_instance

/-- Row of `events`. -/
structure Event where
  eventId : Int
  eventName : String
  description : Option String
deriving DecidableEq, Repr

/-- Row of `bookings`. -/
structure Booking where
  bookingId : Int
  hotelId : Int
  eventId : Int
  guestName : String
  guestPhoneNumber : Option String
  checkInDate : Date
  checkOutDate : Date
deriving DecidableEq, Repr

/-- Row of `rooming_lists`; `status` has a default and no `NOT NULL`. -/
structure RoomingList where
  roomingListId : Int
  eventId : Int
  hotelId : Int
  rfpName : String
  cutOffDate : Date
  status : Option String
  agreement_type : String
deriving DecidableEq, Repr

/-- Row of the junction table `rooming_list_bookings`. -/
structure RoomingListBooking where
  id : Int
  roomingListId : Int
  bookingId : Int
deriving DecidableEq, Repr

/-- The pair of identifiers of a junction row. -/
def RoomingListBooking.pair (l : RoomingListBooking) : Int × Int :=
  (l.roomingListId, l.bookingId)

/-- The four import-affected tables and the sequences behind their `SERIAL`
columns; a sequence is given by the value its next `nextval` returns. -/
structure Store where
  events : List Event
  bookings : List Booking
  roomingLists : List RoomingList
  roomingListBookings : List RoomingListBooking
  eventsSeq : Int
  bookingsSeq : Int
  roomingListsSeq : Int
  roomingListBookingsSeq : Int
deriving DecidableEq, Repr

/-- The store right after `initDatabase` on a fresh database. -/
def Store.init : Store :=
  { events := [], bookings := [], roomingLists := [], roomingListBookings := [],
    eventsSeq := 1, bookingsSeq := 1, roomingListsSeq := 1, roomingListBookingsSeq := 1 }

/-- No committed row in any of the four tables. -/
def Store.noRows (s : Store) : Prop :=
  s.events = [] ∧ s.bookings = [] ∧ s.roomingLists = [] ∧ s.roomingListBookings = []

/-- The store with the rows of its four tables deleted and its sequences as they are. -/
def Store.emptied (s : Store) : Store :=
  { s with events := [], bookings := [], roomingLists := [], roomingListBookings := [] }

/-- The junction sequence is ahead of the junction ids in use: its next value
is above the `id` of every row of `rooming_list_bookings`.  Every junction
`id` is drawn from the sequence, and no handler moves the sequence back, so the
handlers keep this true from `Store.init` on (`seqAhead_init`,
`seqAhead_clearAllData`, `seqAhead_dataInsert`, `seqAhead_linkBooking`,
`seqAhead_deleteRoomingList`; `seqAhead_apply` for every request). -/
def Store.seqAhead (s : Store) : Prop :=
  ∀ l ∈ s.roomingListBookings, l.id < s.roomingListBookingsSeq

/-- The junction table is sound: no pair `(roomingListId, bookingId)` occurs
twice, and every row refers to a stored rooming list and a stored booking. -/
def Store.linksValid (s : Store) : Prop :=
  (s.roomingListBookings.map RoomingListBooking.pair).Nodup ∧
  ∀ l ∈ s.roomingListBookings,
    (∃ r ∈ s.roomingLists, r.roomingListId = l.roomingListId) ∧
    ∃ b ∈ s.bookings, b.bookingId = l.bookingId

/-! ## JSON members and query parameters -/

/-- A member of a JSON object as the handler reads it: `undefined` when the
key is missing, `null`, or a value. -/
inductive Field (α : Type) where
  | undefined
  | null
  | value (v : α)
deriving DecidableEq, Repr

/-- A string offered for a `DATE` column: its text, and the date that the date
input of the database finds in it (`none` when it finds none). -/
structure DateText where
  text : String
  date : Option Date
deriving DecidableEq, Repr

/-- The date the database reads in a text offered for a `DATE` column, or
`none` when it refuses the text; the empty text is no date. -/
def DateText.read (d : DateText) : Option Date :=
  if d.text = "" then none else d.date

/-- JavaScript truthiness of an integer member: `undefined`, `null` and `0` are falsy. -/
def Field.truthyInt : Field Int → Bool
  | .value n => n != 0
  | _ => false

/-- JavaScript truthiness of a string member: `undefined`, `null` and `""` are falsy. -/
def Field.truthyStr : Field String → Bool
  | .value s => s != ""
  | _ => false

/-- JavaScript truthiness of a string member offered as a date: that of its text. -/
def Field.truthyDate : Field DateText → Bool
  | .value d => d.text != ""
  | _ => false

/-- A query parameter: the driver sends `undefined` and `null` as SQL `NULL`. -/
def Field.toParam {α : Type} : Field α → Option α
  | .value v => some v
  | _ => none

/-- Destructuring default `name = d`: only `undefined` takes the default. -/
def Field.withDefault {α : Type} (d : α) : Field α → Field α
  | .undefined => .value d
  | f => f

/-- The expression `s || d` on a string member. -/
def Field.orElse (f : Field String) (d : String) : Field String :=
  if f.truthyStr then f else .value d

/-! ## Errors of the store -/

/-- An error raised by the store for a statement. -/
inductive DbError where
  | undefinedTable (relation : String)
  | outOfRange (column : String)
  | invalidText (column : String)
  | invalidDate (column : String)
  | tooLong (column : String)
  | notNull (column : String)
  | uniqueViolation (constraint : String)
  | foreignKey (constraint : String)
  | check (constraint : String)
deriving DecidableEq, Repr

/-- The closed set of `status`. -/
def statuses : List String := ["Active", "Closed", "Cancelled"]

/-- The closed set of `agreement_type`. -/
def agreementTypes : List String := ["leisure", "staff", "artist"]

/-- `CHECK (status IN ('Active', 'Closed', 'Cancelled'))`: a `NULL` passes. -/
def statusCheck : Option String → Bool
  | none => true
  | some s => decide (s ∈ statuses)

/-- `CHECK ("agreement_type" IN ('leisure', 'staff', 'artist'))`. -/
def agreementTypeCheck (a : String) : Bool := decide (a ∈ agreementTypes)

/-- A `NOT NULL` column receiving parameter `p`. -/
def required {α : Type} (column : String) (p : Option α) : Except DbError α :=
  match p with
  | some v => .ok v
  | none => .error (.notNull column)

/-- The range of `INTEGER`. -/
def fitsInteger (n : Int) : Bool := decide (-2147483648 ≤ n ∧ n ≤ 2147483647)

/-- A parameter bound to an `INTEGER` column: a number out of range is refused. -/
def bindInteger (column : String) (p : Option Int) : Except DbError (Option Int) :=
  match p with
  | none => .ok none
  | some n => if fitsInteger n then .ok (some n) else .error (.outOfRange column)

/-- A parameter bound to a `DATE` column: a text the database reads no date in is refused. -/
def bindDate (column : String) (p : Option DateText) : Except DbError (Option Date) :=
  match p with
  | none => .ok none
  | some d =>
    match d.read with
    | some v => .ok (some v)
    | none => .error (.invalidDate column)

/-- Whether a text can be sent as a parameter: a text holding the character
NUL is refused. -/
def sendable (v : String) : Bool := !v.toList.contains (Char.ofNat 0)

/-- A parameter bound to a `TEXT` column. -/
def bindText (column : String) (p : Option String) : Except DbError (Option String) :=
  match p with
  | none => .ok none
  | some v => if sendable v then .ok (some v) else .error (.invalidText column)

/-- The text a `VARCHAR(n)` column keeps of a value it accepts: the value, cut
to `n` characters when it is longer. -/
def keptText (n : Nat) (v : String) : String :=
  if v.length ≤ n then v else String.mk (v.toList.take n)

/-- A parameter bound to a `VARCHAR(n)` column: a text longer than `n`
characters is refused unless the characters in excess are all spaces, which
are cut off. -/
def fitVarchar (n : Nat) (column : String) (p : Option String) :
    Except DbError (Option String) :=
  match p with
  | none => .ok none
  | some v =>
    if !sendable v then .error (.invalidText column)
    else if v.length ≤ n || (v.toList.drop n).all (fun c => c == ' ') then
      .ok (some (keptText n v))
    else .error (.tooLong column)

/-- `COALESCE($n, column)` on a `NOT NULL` column. -/
def coalesce {α : Type} (p : Option α) (column : α) : α :=
  match p with
  | some v => v
  | none => column

/-- `COALESCE($n, column)` on a nullable column. -/
def coalesceNull {α : Type} (p : Option α) (column : Option α) : Option α :=
  match p with
  | some v => some v
  | none => column

/-! ## Statements: the row an `INSERT` adds, or the error it raises

A statement is refused either before it runs, when a parameter does not fit
the type of its column (`bind...`), or while it runs, on the rows the issuing
connection sees.  Only a statement that runs draws from a sequence. -/

/-- `INSERT INTO events ("eventId", "eventName") VALUES ($1, $2)
ON CONFLICT ("eventId") DO NOTHING`: the rows added (none on a conflict). -/
def insertEventRow (seen : Store) (eventId : Option Int) (eventName : String) :
    Except DbError (List Event) := do
  let bound ← bindInteger "eventId" eventId
  let name ← fitVarchar 255 "eventName" (some eventName)
  let id ← required "eventId" bound
  let n ← required "eventName" name
  if seen.events.any (fun e => e.eventId == id) then pure []
  else pure [{ eventId := id, eventName := n, description := none }]

/-- The parameters of a statement on `bookings`, once bound. -/
structure BookingParams where
  hotelId : Option Int
  eventId : Option Int
  guestName : Option String
  guestPhoneNumber : Option String
  checkInDate : Option Date
  checkOutDate : Option Date
deriving DecidableEq, Repr

/-- Binding the six value parameters of a statement on `bookings`. -/
def bindBooking (hotelId eventId : Option Int) (guestName guestPhoneNumber : Option String)
    (checkInDate checkOutDate : Option DateText) : Except DbError BookingParams := do
  let h ← bindInteger "hotelId" hotelId
  let e ← bindInteger "eventId" eventId
  let g ← fitVarchar 255 "guestName" guestName
  let ph ← fitVarchar 20 "guestPhoneNumber" guestPhoneNumber
  let ci ← bindDate "checkInDate" checkInDate
  let co ← bindDate "checkOutDate" checkOutDate
  pure { hotelId := h, eventId := e, guestName := g, guestPhoneNumber := ph,
         checkInDate := ci, checkOutDate := co }

/-- `INSERT INTO bookings (...) VALUES (...)` with bound parameters, for the
identifier `bookingId` (a bound parameter of the import, the next value of the
sequence otherwise). -/
def insertBookingRow (seen : Store) (bookingId : Option Int) (p : BookingParams) :
    Except DbError Booking := do
  let id ← required "bookingId" bookingId
  let h ← required "hotelId" p.hotelId
  let e ← required "eventId" p.eventId
  let g ← required "guestName" p.guestName
  let ci ← required "checkInDate" p.checkInDate
  let co ← required "checkOutDate" p.checkOutDate
  if seen.bookings.any (fun b => b.bookingId == id) then
    throw (.uniqueViolation "bookings_pkey")
  pure { bookingId := id, hotelId := h, eventId := e, guestName := g,
         guestPhoneNumber := p.guestPhoneNumber, checkInDate := ci, checkOutDate := co }

/-- The parameters of a statement on `rooming_lists`, once bound. -/
structure RoomingListParams where
  eventId : Option Int
  hotelId : Option Int
  rfpName : Option String
  cutOffDate : Option Date
  status : Option String
  agreement_type : Option String
deriving DecidableEq, Repr

/-- Binding the six value parameters of a statement on `rooming_lists`. -/
def bindRoomingList (eventId hotelId : Option Int) (rfpName : Option String)
    (cutOffDate : Option DateText) (status agreement_type : Option String) :
    Except DbError RoomingListParams := do
  let e ← bindInteger "eventId" eventId
  let h ← bindInteger "hotelId" hotelId
  let n ← fitVarchar 255 "rfpName" rfpName
  let c ← bindDate "cutOffDate" cutOffDate
  let st ← fitVarchar 50 "status" status
  let a ← fitVarchar 50 "agreement_type" agreement_type
  pure { eventId := e, hotelId := h, rfpName := n, cutOffDate := c, status := st,
         agreement_type := a }

/-- `INSERT INTO rooming_lists (...) VALUES (...)` with bound parameters, for
the identifier `roomingListId` (bound, or drawn from the sequence). -/
def insertRoomingListRow (seen : Store) (roomingListId : Option Int) (p : RoomingListParams) :
    Except DbError RoomingList := do
  let id ← required "roomingListId" roomingListId
  let e ← required "eventId" p.eventId
  let h ← required "hotelId" p.hotelId
  let n ← required "rfpName" p.rfpName
  let c ← required "cutOffDate" p.cutOffDate
  let a ← required "agreement_type" p.agreement_type
  if !statusCheck p.status then throw (.check "rooming_lists_status_check")
  if !agreementTypeCheck a then throw (.check "rooming_lists_agreement_type_check")
  if seen.roomingLists.any (fun r => r.roomingListId == id) then
    throw (.uniqueViolation "rooming_lists_pkey")
  pure { roomingListId := id, eventId := e, hotelId := h, rfpName := n, cutOffDate := c,
         status := p.status, agreement_type := a }

/-- `INSERT INTO rooming_list_bookings ("roomingListId", "bookingId") VALUES ($1, $2)`
with `id` already drawn from the sequence. -/
def insertLinkRow (seen : Store) (id : Int) (roomingListId bookingId : Option Int) :
    Except DbError RoomingListBooking := do
  let r ← required "roomingListId" roomingListId
  let b ← required "bookingId" bookingId
  if seen.roomingListBookings.any (fun l => l.id == id) then
    throw (.uniqueViolation "rooming_list_bookings_pkey")
  if seen.roomingListBookings.any (fun l => l.roomingListId == r && l.bookingId == b) then
    throw (.uniqueViolation "rooming_list_bookings_roomingListId_bookingId_key")
  if !seen.roomingLists.any (fun x => x.roomingListId == r) then
    throw (.foreignKey "rooming_list_bookings_roomingListId_fkey")
  if !seen.bookings.any (fun x => x.bookingId == b) then
    throw (.foreignKey "rooming_list_bookings_bookingId_fkey")
  pure { id := id, roomingListId := r, bookingId := b }

/-! ## `clearAllData` (src/backend/config/database.js) -/

/-- The sequences of the four `SERIAL` columns. -/
inductive Sequence where
  | bookings
  | roomingLists
  | roomingListBookings
  | events
deriving DecidableEq, Repr

/-- The name under which a `SERIAL` column owns its sequence. -/
def serialSequence (table column : String) : String :=
  table ++ "_" ++ column ++ "_seq"

/-- The names of the four sequences, from the `CREATE TABLE` statements of
`initDatabase`: the columns are `"bookingId"`, `"roomingListId"`, `id` and `"eventId"`. -/
def Sequence.name : Sequence → String
  | .bookings => serialSequence "bookings" "bookingId"
  | .roomingLists => serialSequence "rooming_lists" "roomingListId"
  | .roomingListBookings => serialSequence "rooming_list_bookings" "id"
  | .events => serialSequence "events" "eventId"

/-- An identifier written without quotes is folded to lower case. -/
def foldIdentifier (ident : String) : String :=
  String.mk (ident.toList.map Char.toLower)

/-- The sequence that an unquoted identifier names, if any. -/
def lookupSequence (ident : String) : Option Sequence :=
  [Sequence.bookings, Sequence.roomingLists, Sequence.roomingListBookings, Sequence.events].find?
    fun q => q.name == foldIdentifier ident

/-- `ALTER SEQUENCE <ident> RESTART WITH 1`, with `ident` written without quotes. -/
def alterSequenceRestart (ident : String) (s : Store) : Except DbError Store :=
  match lookupSequence ident with
  | none => .error (.undefinedTable (foldIdentifier ident))
  | some .bookings => .ok { s with bookingsSeq := 1 }
  | some .roomingLists => .ok { s with roomingListsSeq := 1 }
  | some .roomingListBookings => .ok { s with roomingListBookingsSeq := 1 }
  | some .events => .ok { s with eventsSeq := 1 }

/-- `clearAllData`: four `DELETE`s (children first), then four
`ALTER SEQUENCE ... RESTART WITH 1`.  Every statement goes through
`pool.query`, so each is committed when it returns; the `catch` logs and
rethrows.  The result is the error thrown, if any, and the store left. -/
def clearAllData (s : Store) : Option DbError × Store :=
  let s := { s with roomingListBookings := [] }
  let s := { s with roomingLists := [] }
  let s := { s with bookings := [] }
  let s := { s with events := [] }
  match alterSequenceRestart "bookings_bookingId_seq" s with
  | .error e => (some e, s)
  | .ok s =>
    match alterSequenceRestart "rooming_lists_roomingListId_seq" s with
    | .error e => (some e, s)
    | .ok s =>
      match alterSequenceRestart "rooming_list_bookings_id_seq" s with
      | .error e => (some e, s)
      | .ok s =>
        match alterSequenceRestart "events_eventId_seq" s with
        | .error e => (some e, s)
        | .ok s => (none, s)

/-! ## Connections

`pool.query` acts on the committed store.  A handler that holds a `client`
with an open transaction sees the committed rows followed by the rows the
transaction has inserted so far. -/

/-- Rows inserted by the transaction open on `client` and not yet committed. -/
structure Tx where
  events : List Event
  bookings : List Booking
  roomingLists : List RoomingList
  roomingListBookings : List RoomingListBooking
deriving DecidableEq, Repr

/-- The transaction right after `BEGIN`. -/
def Tx.empty : Tx :=
  { events := [], bookings := [], roomingLists := [], roomingListBookings := [] }

/-- The database while a handler holds a `client`. -/
structure Db where
  store : Store
  tx : Tx
deriving DecidableEq, Repr

/-- What a `client.query` sees. -/
def Db.seen (d : Db) : Store :=
  { d.store with
    events := d.store.events ++ d.tx.events
    bookings := d.store.bookings ++ d.tx.bookings
    roomingLists := d.store.roomingLists ++ d.tx.roomingLists
    roomingListBookings := d.store.roomingListBookings ++ d.tx.roomingListBookings }

/-- `client.query('COMMIT')`. -/
def Db.commit (d : Db) : Store := d.seen

/-- `client.query('ROLLBACK')`: the rows of the transaction are dropped. -/
def Db.rollback (d : Db) : Store := d.store

/-! ## Responses -/

/-- What a handler throws or catches. -/
inductive Failure where
  | fileNotFound (file : String)
  | syntaxError
  | typeError
  | db (e : DbError)
deriving DecidableEq, Repr

/-- A response: `res.status(status).json(data)` on the success path, or
`res.status(status).json(\x7b error, details \x7d)`. -/
inductive Reply (α : Type) where
  | ok (status : Nat) (data : α)
  | fail (status : Nat) (error : String) (details : Option Failure)
deriving DecidableEq, Repr

/-- HTTP status of a response. -/
def Reply.status {α : Type} : Reply α → Nat
  | .ok st _ => st
  | .fail st _ _ => st

/-- Success payload of a response, if any. -/
def Reply.data? {α : Type} : Reply α → Option α
  | .ok _ d => some d
  | .fail _ _ _ => none

/-! ## Bulk import (src/backend/routes/data.js) -/

/-- A record of `bookings.json`. -/
structure BookingRecord where
  bookingId : Field Int
  hotelId : Field Int
  eventId : Field Int
  guestName : Field String
  guestPhoneNumber : Field String
  checkInDate : Field DateText
  checkOutDate : Field DateText
deriving DecidableEq, Repr

/-- A record of `rooming-lists.json`. -/
structure RoomingListRecord where
  roomingListId : Field Int
  eventId : Field Int
  hotelId : Field Int
  rfpName : Field String
  cutOffDate : Field DateText
  status : Field String
  agreement_type : Field String
deriving DecidableEq, Repr

/-- A record of `rooming-list-bookings.json`. -/
structure LinkRecord where
  roomingListId : Field Int
  bookingId : Field Int
deriving DecidableEq, Repr

/-- One of the three JSON files: missing (`fs.existsSync` is false), not valid
JSON (`JSON.parse` throws), or valid JSON: `null`, a string of `chars`
characters, another value that is no array (a number, a boolean, an object),
or an array of records. -/
inductive Source (α : Type) where
  | absent
  | unparsable
  | null
  | text (chars : Nat)
  | notIterable
  | records (rs : List α)
deriving DecidableEq, Repr

/-- The three files the import reads. -/
structure Files where
  roomingLists : Source RoomingListRecord
  bookings : Source BookingRecord
  roomingListBookings : Source LinkRecord
deriving DecidableEq, Repr

/-- Whether `fs.existsSync` finds the file. -/
def Source.isPresent {α : Type} : Source α → Bool
  | .absent => false
  | _ => true

/-- Whether `JSON.parse` accepts the file. -/
def Source.parses {α : Type} : Source α → Bool
  | .absent => false
  | .unparsable => false
  | _ => true

/-- Whether `data.length` can be read: reading a member of `null` throws. -/
def Source.hasMembers {α : Type} : Source α → Bool
  | .null => false
  | _ => true

/-- The array that `data.map(...)` maps over: only an array has `map`. -/
def Source.array? {α : Type} : Source α → Option (List α)
  | .records rs => some rs
  | _ => none

/-- The values that `for (const x of data)` runs through: the elements of an
array, or the characters of a string, none of which has the members of a
record (`blank`); another value is not iterable. -/
def Source.iterate? {α : Type} (blank : α) : Source α → Option (List α)
  | .records rs => some rs
  | .text chars => some (List.replicate chars blank)
  | _ => none

/-- What a character of a string gives for the members of a rooming-list record. -/
def RoomingListRecord.blank : RoomingListRecord :=
  { roomingListId := .undefined, eventId := .undefined, hotelId := .undefined,
    rfpName := .undefined, cutOffDate := .undefined, status := .undefined,
    agreement_type := .undefined }

/-- What a character of a string gives for the members of a link record. -/
def LinkRecord.blank : LinkRecord :=
  { roomingListId := .undefined, bookingId := .undefined }

/-- Insertion into a JavaScript `Set`, which keeps insertion order. -/
def setAdd {α : Type} [DecidableEq α] (acc : List α) (x : α) : List α :=
  if x ∈ acc then acc else acc ++ [x]

/-- The spread of `new Set(xs)`: the distinct values in order of first appearance. -/
def newSet {α : Type} [DecidableEq α] (xs : List α) : List α :=
  xs.foldl setAdd []

/-- The value of `[...new Set(bookingsData.map(booking => booking.eventId))]`. -/
def uniqueEvents (bookingsData : List BookingRecord) : List (Field Int) :=
  newSet (bookingsData.map (fun booking => booking.eventId))

/-- The template literal that names a derived event: "Event " followed by the identifier. -/
def eventName : Field Int → String
  | .value n => "Event " ++ toString n
  | .null => "Event null"
  | .undefined => "Event undefined"

/-- Step 3: one `INSERT ... ON CONFLICT DO NOTHING` per distinct event identifier. -/
def insertEvents : List (Field Int) → Db → Option Failure × Db
  | [], d => (none, d)
  | eventId :: rest, d =>
    match insertEventRow d.seen eventId.toParam (eventName eventId) with
    | .error e => (some (.db e), d)
    | .ok rows => insertEvents rest { d with tx := { d.tx with events := d.tx.events ++ rows } }

/-- The `INSERT` of Step 4 for one booking record, with the record's own identifier. -/
def importBookingRow (seen : Store) (booking : BookingRecord) : Except DbError Booking := do
  let id ← bindInteger "bookingId" booking.bookingId.toParam
  let p ← bindBooking booking.hotelId.toParam booking.eventId.toParam booking.guestName.toParam
    booking.guestPhoneNumber.toParam booking.checkInDate.toParam booking.checkOutDate.toParam
  insertBookingRow seen id p

/-- Step 4: one `INSERT` per booking record. -/
def insertBookings : List BookingRecord → Db → Option Failure × Db
  | [], d => (none, d)
  | booking :: rest, d =>
    match importBookingRow d.seen booking with
    | .error e => (some (.db e), d)
    | .ok row => insertBookings rest { d with tx := { d.tx with bookings := d.tx.bookings ++ [row] } }

/-- The `INSERT` of Step 5 for one rooming-list record; `status` is
`roomingList.status || 'Active'`. -/
def importRoomingListRow (seen : Store) (roomingList : RoomingListRecord) :
    Except DbError RoomingList := do
  let id ← bindInteger "roomingListId" roomingList.roomingListId.toParam
  let p ← bindRoomingList roomingList.eventId.toParam roomingList.hotelId.toParam
    roomingList.rfpName.toParam roomingList.cutOffDate.toParam
    (roomingList.status.orElse "Active").toParam roomingList.agreement_type.toParam
  insertRoomingListRow seen id p

/-- Step 5: one `INSERT` per rooming-list record. -/
def insertRoomingLists : List RoomingListRecord → Db → Option Failure × Db
  | [], d => (none, d)
  | roomingList :: rest, d =>
    match importRoomingListRow d.seen roomingList with
    | .error e => (some (.db e), d)
    | .ok row =>
      insertRoomingLists rest { d with tx := { d.tx with roomingLists := d.tx.roomingLists ++ [row] } }

/-- The two parameters of the `INSERT` of Step 6, bound. -/
def bindLink (relation : LinkRecord) : Except DbError (Option Int × Option Int) := do
  let r ← bindInteger "roomingListId" relation.roomingListId.toParam
  let b ← bindInteger "bookingId" relation.bookingId.toParam
  pure (r, b)

/-- Step 6: one `INSERT` per link record; the row's `id` is drawn from the
sequence, which stays advanced whether or not the row is accepted. -/
def insertLinks : List LinkRecord → Db → Option Failure × Db
  | [], d => (none, d)
  | relation :: rest, d =>
    match bindLink relation with
    | .error e => (some (.db e), d)
    | .ok (r, b) =>
      let id := d.store.roomingListBookingsSeq
      let d := { d with store := { d.store with roomingListBookingsSeq := id + 1 } }
      match insertLinkRow d.seen id r b with
      | .error e => (some (.db e), d)
      | .ok row =>
        insertLinks rest
          { d with tx := { d.tx with roomingListBookings := d.tx.roomingListBookings ++ [row] } }

/-- The `data` member of the import and status responses. -/
structure Counts where
  events : Nat
  bookings : Nat
  roomingLists : Nat
  roomingListBookings : Nat
deriving DecidableEq, Repr

/-- Steps 3 to 6 of `router.post('/insert')` on the three parsed files. -/
def importRows (files : Files) (d : Db) : Except Failure Counts × Db :=
  -- Step 3
  match files.bookings.array? with
  | none => (.error .typeError, d)
  | some bookingsData =>
    match insertEvents (uniqueEvents bookingsData) d with
    | (some e, d) => (.error e, d)
    | (none, d) =>
      -- Step 4
      match insertBookings bookingsData d with
      | (some e, d) => (.error e, d)
      | (none, d) =>
        -- Step 5
        match files.roomingLists.iterate? RoomingListRecord.blank with
        | none => (.error .typeError, d)
        | some roomingListsData =>
          match insertRoomingLists roomingListsData d with
          | (some e, d) => (.error e, d)
          | (none, d) =>
            -- Step 6
            match files.roomingListBookings.iterate? LinkRecord.blank with
            | none => (.error .typeError, d)
            | some roomingListBookingsData =>
              match insertLinks roomingListBookingsData d with
              | (some e, d) => (.error e, d)
              | (none, d) =>
                (.ok { events := (uniqueEvents bookingsData).length
                       bookings := bookingsData.length
                       roomingLists := roomingListsData.length
                       roomingListBookings := roomingListBookingsData.length }, d)

/-- The body of the `try` block of `router.post('/insert')` after `BEGIN`, up
to and excluding `COMMIT`: the outcome and the database at that point. -/
def importSteps (files : Files) (d : Db) : Except Failure Counts × Db :=
  -- Step 1: `await clearAllData()`, through the pool; what it throws is not caught here
  match clearAllData d.store with
  | (some e, store) => (.error (.db e), { d with store := store })
  | (none, store) =>
    let d := { d with store := store }
    -- Step 2: the three existence checks, the three `JSON.parse`, the three `.length`
    if !files.roomingLists.isPresent then (.error (.fileNotFound "rooming-lists.json"), d)
    else if !files.bookings.isPresent then (.error (.fileNotFound "bookings.json"), d)
    else if !files.roomingListBookings.isPresent then
      (.error (.fileNotFound "rooming-list-bookings.json"), d)
    else if !files.roomingLists.parses then (.error .syntaxError, d)
    else if !files.bookings.parses then (.error .syntaxError, d)
    else if !files.roomingListBookings.parses then (.error .syntaxError, d)
    else if !files.roomingLists.hasMembers then (.error .typeError, d)
    else if !files.bookings.hasMembers then (.error .typeError, d)
    else if !files.roomingListBookings.hasMembers then (.error .typeError, d)
    else importRows files d

/-- `router.post('/insert')`: `BEGIN` on a fresh client, the steps, then
`COMMIT` and the counts, or `ROLLBACK` and a 500. -/
def dataInsert (files : Files) (s : Store) : Reply Counts × Store :=
  match importSteps files { store := s, tx := Tx.empty } with
  | (.ok counts, d) => (.ok 200 counts, d.commit)
  | (.error e, d) => (.fail 500 "Failed to insert data from JSON files" (some e), d.rollback)

/-- `router.get('/status')`: the four row counts. -/
def dataStatus (s : Store) : Reply Counts :=
  .ok 200 { bookings := s.bookings.length, roomingLists := s.roomingLists.length,
            events := s.events.length, roomingListBookings := s.roomingListBookings.length }

/-- `router.delete('/clear')`. -/
def dataClear (s : Store) : Reply Unit × Store :=
  match clearAllData s with
  | (none, s) => (.ok 200 (), s)
  | (some _, s) => (.fail 500 "Failed to clear data" none, s)

/-! ## Rooming lists (src/backend/routes/roomingLists.js) -/

/-- A row of the booking queries: `b.*` and `e."eventName"`. -/
structure BookingView where
  booking : Booking
  eventName : Option String
deriving DecidableEq, Repr

/-- A row of `rooming_list_bookings rlb JOIN bookings b LEFT JOIN events e`. -/
structure JoinedRow where
  rlb : RoomingListBooking
  b : Booking
  e : Option Event
deriving DecidableEq, Repr

/-- `LEFT JOIN events e ON b."eventId" = e."eventId"` for one joined pair:
one row per matching event, or one row with no event. -/
def leftJoinEvents (events : List Event) (rlb : RoomingListBooking) (b : Booking) :
    List JoinedRow :=
  match events.filter (fun e => b.eventId == e.eventId) with
  | [] => [{ rlb := rlb, b := b, e := none }]
  | es => es.map fun e => { rlb := rlb, b := b, e := some e }

/-- The query of `router.get('/:id/bookings')`.  `ORDER BY b."checkInDate"`
leaves rows with equal dates in an unspecified order; here they keep the
order of an insertion sort. -/
def roomingListBookingsQuery (s : Store) (id : Int) : List BookingView :=
  let joined := s.roomingListBookings.flatMap fun rlb =>
    (s.bookings.filter fun b => rlb.bookingId == b.bookingId).flatMap
      (leftJoinEvents s.events rlb)
  let selected := joined.filter fun row => row.rlb.roomingListId == id
  let ordered := selected.insertionSort fun x y => Date.le x.b.checkInDate y.b.checkInDate
  ordered.map fun row => { booking := row.b, eventName := row.e.map fun e => e.eventName }

/-- The success body of `router.get('/:id/bookings')`. -/
structure BookingList where
  data : List BookingView
  count : Nat
  roomingListId : Int
deriving DecidableEq, Repr

/-- `router.get('/:id/bookings')`. -/
def getRoomingListBookings (id : Int) (s : Store) : Reply BookingList :=
  let rows := roomingListBookingsQuery s id
  .ok 200 { data := rows, count := rows.length, roomingListId := id }

/-- A row of `router.get('/:id')`: `rl.*` and `e."eventName"`. -/
structure RoomingListView where
  roomingList : RoomingList
  eventName : Option String
deriving DecidableEq, Repr

/-- The query of `router.get('/:id')`. -/
def roomingListQuery (s : Store) (id : Int) : List RoomingListView :=
  let joined := s.roomingLists.flatMap fun rl =>
    match s.events.filter (fun e => rl.eventId == e.eventId) with
    | [] => [{ roomingList := rl, eventName := none }]
    | es => es.map fun e => { roomingList := rl, eventName := some e.eventName }
  joined.filter fun row => row.roomingList.roomingListId == id

/-- `router.get('/:id')`. -/
def getRoomingList (id : Int) (s : Store) : Reply RoomingListView :=
  match roomingListQuery s id with
  | [] => .fail 404 "Rooming list not found" none
  | row :: _ => .ok 200 row

/-- The members of `req.body` that the rooming-list handlers read. -/
structure RoomingListBody where
  eventId : Field Int
  hotelId : Field Int
  rfpName : Field String
  cutOffDate : Field DateText
  status : Field String
  agreement_type : Field String
deriving DecidableEq, Repr

/-- The test `xs.includes(f)`. -/
def includes (xs : List String) : Field String → Bool
  | .value v => decide (v ∈ xs)
  | _ => false

/-- `router.post('/')`: the three validations, then an `INSERT` whose
`roomingListId` is drawn from the sequence. -/
def postRoomingList (body : RoomingListBody) (s : Store) : Reply RoomingList × Store :=
  let status := body.status.withDefault "Active"
  if !body.eventId.truthyInt || !body.hotelId.truthyInt || !body.rfpName.truthyStr ||
      !body.cutOffDate.truthyDate || !body.agreement_type.truthyStr then
    (.fail 400
      "Missing required fields: eventId, hotelId, rfpName, cutOffDate, agreement_type" none, s)
  else if !includes agreementTypes body.agreement_type then
    (.fail 400 "agreement_type must be one of: leisure, staff, artist" none, s)
  else if !includes statuses status then
    (.fail 400 "status must be one of: Active, Closed, Cancelled" none, s)
  else
    match bindRoomingList body.eventId.toParam body.hotelId.toParam body.rfpName.toParam
        body.cutOffDate.toParam status.toParam body.agreement_type.toParam with
    | .error _ => (.fail 500 "Failed to create rooming list" none, s)
    | .ok p =>
      let id := s.roomingListsSeq
      let s := { s with roomingListsSeq := id + 1 }
      match insertRoomingListRow s (some id) p with
      | .ok row => (.ok 201 row, { s with roomingLists := s.roomingLists ++ [row] })
      | .error _ => (.fail 500 "Failed to create rooming list" none, s)

/-- The `SET` clause of the `UPDATE` of `router.put('/:id')` applied to one row. -/
def setClause (p : RoomingListParams) (r : RoomingList) : RoomingList :=
  { r with
    eventId := coalesce p.eventId r.eventId
    hotelId := coalesce p.hotelId r.hotelId
    rfpName := coalesce p.rfpName r.rfpName
    cutOffDate := coalesce p.cutOffDate r.cutOffDate
    status := coalesceNull p.status r.status
    agreement_type := coalesce p.agreement_type r.agreement_type }

/-- `UPDATE rooming_lists SET ... WHERE "roomingListId" = $1 RETURNING *` with
bound parameters: the new table and the returned rows, or the `CHECK` that a
new row violates. -/
def updateRoomingLists (s : Store) (id : Int) (p : RoomingListParams) :
    Except DbError (List RoomingList × List RoomingList) :=
  let returned := (s.roomingLists.filter fun r => r.roomingListId == id).map (setClause p)
  if returned.any fun r => !statusCheck r.status then
    .error (.check "rooming_lists_status_check")
  else if returned.any fun r => !agreementTypeCheck r.agreement_type then
    .error (.check "rooming_lists_agreement_type_check")
  else
    .ok (s.roomingLists.map fun r => if r.roomingListId == id then setClause p r else r, returned)

/-- `router.put('/:id')`: the two validations "if provided", then the `UPDATE`. -/
def putRoomingList (id : Int) (body : RoomingListBody) (s : Store) : Reply RoomingList × Store :=
  if body.agreement_type.truthyStr && !includes agreementTypes body.agreement_type then
    (.fail 400 "agreement_type must be one of: leisure, staff, artist" none, s)
  else if body.status.truthyStr && !includes statuses body.status then
    (.fail 400 "status must be one of: Active, Closed, Cancelled" none, s)
  else
    match bindRoomingList body.eventId.toParam body.hotelId.toParam body.rfpName.toParam
        body.cutOffDate.toParam body.status.toParam body.agreement_type.toParam with
    | .error _ => (.fail 500 "Failed to update rooming list" none, s)
    | .ok p =>
      match updateRoomingLists s id p with
      | .error _ => (.fail 500 "Failed to update rooming list" none, s)
      | .ok (table, []) =>
        (.fail 404 "Rooming list not found" none, { s with roomingLists := table })
      | .ok (table, row :: _) => (.ok 200 row, { s with roomingLists := table })

/-- `router.delete('/:id')`: `DELETE FROM rooming_lists WHERE "roomingListId" = $1
RETURNING *`; the junction rows that refer to a deleted row go with it
(`ON DELETE CASCADE`). -/
def deleteRoomingList (id : Int) (s : Store) : Reply RoomingList × Store :=
  let deleted := s.roomingLists.filter fun r => r.roomingListId == id
  let s1 := { s with
    roomingLists := s.roomingLists.filter fun r => !(r.roomingListId == id)
    roomingListBookings := s.roomingListBookings.filter fun l =>
      !(deleted.any fun r => r.roomingListId == l.roomingListId) }
  match deleted with
  | [] => (.fail 404 "Rooming list not found" none, s1)
  | row :: _ => (.ok 200 row, s1)

/-! ## Linking (src/backend/routes/bookings.js) -/

/-- `router.post('/:bookingId/rooming-lists/:roomingListId')`: three lookups,
then an `INSERT` whose `id` is drawn from the sequence. -/
def linkBooking (bookingId roomingListId : Int) (s : Store) : Reply String × Store :=
  let bookingCheck := s.bookings.filter fun b => b.bookingId == bookingId
  if bookingCheck.length == 0 then (.fail 404 "Booking not found" none, s)
  else
    let roomingListCheck := s.roomingLists.filter fun r => r.roomingListId == roomingListId
    if roomingListCheck.length == 0 then (.fail 404 "Rooming list not found" none, s)
    else
      let linkCheck := s.roomingListBookings.filter fun l =>
        l.bookingId == bookingId && l.roomingListId == roomingListId
      if linkCheck.length > 0 then
        (.fail 400 "Booking already linked to this rooming list" none, s)
      else
        let id := s.roomingListBookingsSeq
        let s := { s with roomingListBookingsSeq := id + 1 }
        match insertLinkRow s id (some roomingListId) (some bookingId) with
        | .ok row =>
          (.ok 200 "Booking linked to rooming list successfully",
            { s with roomingListBookings := s.roomingListBookings ++ [row] })
        | .error e => (.fail 500 "Failed to link booking to rooming list" (some (.db e)), s)

/-- The validations of `router.post('/')` of the rooming lists, which precede
its only query: the message of the 400 they return, or `none` when the
handler goes on to the `INSERT`. -/
def postRoomingListRejects (body : RoomingListBody) : Option String :=
  let status := body.status.withDefault "Active"
  if !body.eventId.truthyInt || !body.hotelId.truthyInt || !body.rfpName.truthyStr ||
      !body.cutOffDate.truthyDate || !body.agreement_type.truthyStr then
    some "Missing required fields: eventId, hotelId, rfpName, cutOffDate, agreement_type"
  else if !includes agreementTypes body.agreement_type then
    some "agreement_type must be one of: leisure, staff, artist"
  else if !includes statuses status then
    some "status must be one of: Active, Closed, Cancelled"
  else none

/-- The validations of `router.put('/:id')` of the rooming lists, which precede
its only query: the message of the 400 they return, or `none` when the
handler goes on to the `UPDATE`. -/
def putRoomingListRejects (body : RoomingListBody) : Option String :=
  if body.agreement_type.truthyStr && !includes agreementTypes body.agreement_type then
    some "agreement_type must be one of: leisure, staff, artist"
  else if body.status.truthyStr && !includes statuses body.status then
    some "status must be one of: Active, Closed, Cancelled"
  else none

/-! ## Bookings (src/backend/routes/bookings.js) -/

/-- The members of `req.body` that the booking handlers read. -/
structure BookingBody where
  hotelId : Field Int
  eventId : Field Int
  guestName : Field String
  guestPhoneNumber : Field String
  checkInDate : Field DateText
  checkOutDate : Field DateText
deriving DecidableEq, Repr

/-- The query of `router.get('/:id')` of the bookings: `b.*` and
`e."eventName"` from `bookings b LEFT JOIN events e`, for one identifier. -/
def bookingQuery (s : Store) (id : Int) : List BookingView :=
  let joined := s.bookings.flatMap fun b =>
    match s.events.filter (fun e => b.eventId == e.eventId) with
    | [] => [{ booking := b, eventName := none }]
    | es => es.map fun e => { booking := b, eventName := some e.eventName }
  joined.filter fun row => row.booking.bookingId == id

/-- `router.get('/:id')` of the bookings. -/
def getBooking (id : Int) (s : Store) : Reply BookingView :=
  match bookingQuery s id with
  | [] => .fail 404 "Booking not found" none
  | row :: _ => .ok 200 row

/-- `router.post('/')` of the bookings: the required-field check, then an
`INSERT` whose `bookingId` is drawn from the sequence. -/
def postBooking (body : BookingBody) (s : Store) : Reply Booking × Store :=
  if !body.hotelId.truthyInt || !body.eventId.truthyInt || !body.guestName.truthyStr ||
      !body.checkInDate.truthyDate || !body.checkOutDate.truthyDate then
    (.fail 400
      "Missing required fields: hotelId, eventId, guestName, checkInDate, checkOutDate" none, s)
  else
    match bindBooking body.hotelId.toParam body.eventId.toParam body.guestName.toParam
        body.guestPhoneNumber.toParam body.checkInDate.toParam body.checkOutDate.toParam with
    | .error _ => (.fail 500 "Failed to create booking" none, s)
    | .ok p =>
      let id := s.bookingsSeq
      let s := { s with bookingsSeq := id + 1 }
      match insertBookingRow s (some id) p with
      | .ok row => (.ok 201 row, { s with bookings := s.bookings ++ [row] })
      | .error _ => (.fail 500 "Failed to create booking" none, s)

/-- The `SET` clause of the `UPDATE` of `router.put('/:id')` of the bookings. -/
def setBooking (p : BookingParams) (b : Booking) : Booking :=
  { b with
    hotelId := coalesce p.hotelId b.hotelId
    eventId := coalesce p.eventId b.eventId
    guestName := coalesce p.guestName b.guestName
    guestPhoneNumber := coalesceNull p.guestPhoneNumber b.guestPhoneNumber
    checkInDate := coalesce p.checkInDate b.checkInDate
    checkOutDate := coalesce p.checkOutDate b.checkOutDate }

/-- `router.put('/:id')` of the bookings. -/
def putBooking (id : Int) (body : BookingBody) (s : Store) : Reply Booking × Store :=
  match bindBooking body.hotelId.toParam body.eventId.toParam body.guestName.toParam
      body.guestPhoneNumber.toParam body.checkInDate.toParam body.checkOutDate.toParam with
  | .error _ => (.fail 500 "Failed to update booking" none, s)
  | .ok p =>
    let returned := (s.bookings.filter fun b => b.bookingId == id).map (setBooking p)
    let s1 := { s with
      bookings := s.bookings.map fun b => if b.bookingId == id then setBooking p b else b }
    match returned with
    | [] => (.fail 404 "Booking not found" none, s1)
    | row :: _ => (.ok 200 row, s1)

/-- `router.delete('/:id')` of the bookings; the junction rows that refer to a
deleted booking go with it (`ON DELETE CASCADE`). -/
def deleteBooking (id : Int) (s : Store) : Reply Booking × Store :=
  let deleted := s.bookings.filter fun b => b.bookingId == id
  let s1 := { s with
    bookings := s.bookings.filter fun b => !(b.bookingId == id)
    roomingListBookings := s.roomingListBookings.filter fun l =>
      !(deleted.any fun b => b.bookingId == l.bookingId) }
  match deleted with
  | [] => (.fail 404 "Booking not found" none, s1)
  | row :: _ => (.ok 200 row, s1)

/-- `router.delete('/:bookingId/rooming-lists/:roomingListId')`. -/
def unlinkBooking (bookingId roomingListId : Int) (s : Store) : Reply String × Store :=
  let deleted := s.roomingListBookings.filter fun l =>
    l.bookingId == bookingId && l.roomingListId == roomingListId
  let s1 := { s with
    roomingListBookings := s.roomingListBookings.filter fun l =>
      !(l.bookingId == bookingId && l.roomingListId == roomingListId) }
  match deleted with
  | [] => (.fail 404 "Link not found between booking and rooming list" none, s1)
  | _ :: _ => (.ok 200 "Booking unlinked from rooming list successfully", s1)

/-! ## Events (src/backend/routes/events.js) -/

/-- The members of `req.body` that the event handlers read. -/
structure EventBody where
  eventName : Field String
  description : Field String
deriving DecidableEq, Repr

/-- The two value parameters of a statement on `events`, bound. -/
def bindEvent (eventName description : Option String) :
    Except DbError (Option String × Option String) := do
  let n ← fitVarchar 255 "eventName" eventName
  let d ← bindText "description" description
  pure (n, d)

/-- `router.post('/')` of the events: `eventId` is drawn from the sequence. -/
def postEvent (body : EventBody) (s : Store) : Reply Event × Store :=
  if !body.eventName.truthyStr then
    (.fail 400 "Missing required field: eventName" none, s)
  else
    match bindEvent body.eventName.toParam body.description.toParam with
    | .error _ => (.fail 500 "Failed to create event" none, s)
    | .ok (eventName, description) =>
      let id := s.eventsSeq
      let s := { s with eventsSeq := id + 1 }
      match eventName with
      | none => (.fail 500 "Failed to create event" none, s)
      | some name =>
        if s.events.any fun e => e.eventId == id then
          (.fail 500 "Failed to create event" none, s)
        else
          let row : Event := { eventId := id, eventName := name, description := description }
          (.ok 201 row, { s with events := s.events ++ [row] })

/-- The `SET` clause of the `UPDATE` of `router.put('/:id')` of the events. -/
def setEvent (eventName description : Option String) (e : Event) : Event :=
  { e with
    eventName := coalesce eventName e.eventName
    description := coalesceNull description e.description }

/-- `router.put('/:id')` of the events. -/
def putEvent (id : Int) (body : EventBody) (s : Store) : Reply Event × Store :=
  match bindEvent body.eventName.toParam body.description.toParam with
  | .error _ => (.fail 500 "Failed to update event" none, s)
  | .ok (eventName, description) =>
    let set := setEvent eventName description
    let returned := (s.events.filter fun e => e.eventId == id).map set
    let s1 := { s with events := s.events.map fun e => if e.eventId == id then set e else e }
    match returned with
    | [] => (.fail 404 "Event not found" none, s1)
    | row :: _ => (.ok 200 row, s1)

/-- `router.delete('/:id')` of the events; no table refers to `events`. -/
def deleteEvent (id : Int) (s : Store) : Reply Event × Store :=
  let deleted := s.events.filter fun e => e.eventId == id
  let s1 := { s with events := s.events.filter fun e => !(e.eventId == id) }
  match deleted with
  | [] => (.fail 404 "Event not found" none, s1)
  | row :: _ => (.ok 200 row, s1)

/-! ## Sequences of operations -/

/-- A mutating request. -/
inductive Op where
  | createEvent (body : EventBody)
  | updateEvent (id : Int) (body : EventBody)
  | deleteEvent (id : Int)
  | createBooking (body : BookingBody)
  | updateBooking (id : Int) (body : BookingBody)
  | deleteBooking (id : Int)
  | createRoomingList (body : RoomingListBody)
  | updateRoomingList (id : Int) (body : RoomingListBody)
  | deleteRoomingList (id : Int)
  | link (bookingId roomingListId : Int)
  | unlink (bookingId roomingListId : Int)
  | clear
  | bulkImport (files : Files)

/-- The store a request leaves. -/
def Op.apply : Op → Store → Store
  | .createEvent body, s => (postEvent body s).2
  | .updateEvent id body, s => (putEvent id body s).2
  | .deleteEvent id, s => (RoomingListManager.deleteEvent id s).2
  | .createBooking body, s => (postBooking body s).2
  | .updateBooking id body, s => (putBooking id body s).2
  | .deleteBooking id, s => (RoomingListManager.deleteBooking id s).2
  | .createRoomingList body, s => (postRoomingList body s).2
  | .updateRoomingList id body, s => (putRoomingList id body s).2
  | .deleteRoomingList id, s => (RoomingListManager.deleteRoomingList id s).2
  | .link bookingId roomingListId, s => (linkBooking bookingId roomingListId s).2
  | .unlink bookingId roomingListId, s => (unlinkBooking bookingId roomingListId s).2
  | .clear, s => (dataClear s).2
  | .bulkImport files, s => (dataInsert files s).2

/-- The store after a sequence of requests, served one after the other. -/
def run (ops : List Op) (s : Store) : Store :=
  ops.foldl (fun s op => op.apply s) s

/-! ## JSON records of the booking responses -/

/-- A JSON scalar of a response; a `DATE` column is the timestamp the driver
renders for it, which is not the text of a request. -/
inductive Json where
  | null
  | num (n : Int)
  | str (s : String)
  | date (d : Date)
deriving DecidableEq, Repr

/-- A nullable text column as JSON. -/
def Json.ofText : Option String → Json
  | some s => .str s
  | none => .null

/-- The record `RETURNING *` yields for a `bookings` row (without `created_at`). -/
def Booking.toJson (b : Booking) : List (String × Json) :=
  [("bookingId", .num b.bookingId), ("hotelId", .num b.hotelId), ("eventId", .num b.eventId),
   ("guestName", .str b.guestName), ("guestPhoneNumber", .ofText b.guestPhoneNumber),
   ("checkInDate", .date b.checkInDate), ("checkOutDate", .date b.checkOutDate)]

/-- The record of `SELECT b.*, e."eventName"` (without `created_at`). -/
def BookingView.toJson (v : BookingView) : List (String × Json) :=
  v.booking.toJson ++ [("eventName", .ofText v.eventName)]

/-- A member of a request body as JSON. -/
def Json.ofDateText : Field DateText → Json
  | .value d => .str d.text
  | _ => .null

/-! ### Sample data: the end-to-end example of the specification -/

/-- The text `YYYY-MM-DD` of a date, with the date the database reads in it. -/
def isoDate (text : String) (year month day : Nat) : DateText :=
  { text := text, date := some { year := year, month := month, day := day } }

/-- A booking record with every member set. -/
def sampleBooking (bookingId eventId : Int) (checkIn : DateText) : BookingRecord :=
  { bookingId := .value bookingId, hotelId := .value 5, eventId := .value eventId,
    guestName := .value "Guest", guestPhoneNumber := .null,
    checkInDate := .value checkIn, checkOutDate := .value (isoDate "2024-01-09" 2024 1 9) }

/-- Rooming list 100 of the example; `status` is missing. -/
def sampleRoomingList : RoomingListRecord :=
  { roomingListId := .value 100, eventId := .value 10, hotelId := .value 5,
    rfpName := .value "X", cutOffDate := .value (isoDate "2024-01-01" 2024 1 1),
    status := .undefined, agreement_type := .value "leisure" }

/-- The three files of the example: bookings 1 and 2 of event 10, rooming list
100, and the link of booking 1 to rooming list 100. -/
def sampleFiles : Files :=
  { roomingLists := .records [sampleRoomingList]
    bookings := .records [sampleBooking 1 10 (isoDate "2024-01-02" 2024 1 2),
                          sampleBooking 2 10 (isoDate "2024-01-03" 2024 1 3)]
    roomingListBookings := .records [{ roomingListId := .value 100, bookingId := .value 1 }] }

/-- The example with `rooming-lists.json` missing. -/
def sampleFilesMissing : Files :=
  { sampleFiles with roomingLists := .absent }

/-- A link to booking 3, which the example does not contain. -/
def danglingLink : LinkRecord :=
  { roomingListId := .value 100, bookingId := .value 3 }

/-- The example with its link replaced by the dangling one. -/
def sampleFilesDangling : Files :=
  { sampleFiles with roomingListBookings := .records [danglingLink] }

/-- A store holding one event, one booking, one rooming list and their link. -/
def sampleStore : Store :=
  { events := [{ eventId := 7, eventName := "Event 7", description := none }]
    bookings := [{ bookingId := 1, hotelId := 5, eventId := 7, guestName := "Guest",
                   guestPhoneNumber := none, checkInDate := { year := 2024, month := 1, day := 2 },
                   checkOutDate := { year := 2024, month := 1, day := 9 } }]
    roomingLists := [{ roomingListId := 1, eventId := 7, hotelId := 5, rfpName := "X",
                       cutOffDate := { year := 2024, month := 1, day := 1 },
                       status := some "Active", agreement_type := "leisure" }]
    roomingListBookings := [{ id := 1, roomingListId := 1, bookingId := 1 }]
    eventsSeq := 8, bookingsSeq := 2, roomingListsSeq := 2, roomingListBookingsSeq := 2 }

/-- The sample store without its link: booking 1 and rooming list 1 are not linked. -/
def sampleStoreUnlinked : Store :=
  { sampleStore with roomingListBookings := [] }

/-- A body that sets only `status`, to "Closed". -/
def closeBody : RoomingListBody :=
  { eventId := .undefined, hotelId := .undefined, rfpName := .undefined,
    cutOffDate := .undefined, status := .value "Closed", agreement_type := .undefined }

/-- A body that sets only `status`, to the empty string. -/
def emptyStatusBody : RoomingListBody :=
  { closeBody with status := .value "" }

/-- A body that sets only `eventId`, to 2147483648, the first number above `INTEGER`. -/
def bigEventBody : RoomingListBody :=
  { closeBody with eventId := .value 2147483648, status := .undefined }

/-- A complete body for a new rooming list whose `agreement_type` is "vip". -/
def vipBody : RoomingListBody :=
  { eventId := .value 7, hotelId := .value 5, rfpName := .value "Y",
    cutOffDate := .value (isoDate "2024-02-01" 2024 2 1), status := .undefined,
    agreement_type := .value "vip" }

/-- What a partial update does to a `NOT NULL` column: a member that is set
gives the new value, a member that is unset (missing or `null`) keeps the old one. -/
def Field.updates {α : Type} (f : Field α) (old new : α) : Prop :=
  match f with
  | .value v => new = v
  | _ => new = old

/-- What a partial update does to a `DATE NOT NULL` column: a member that is
set gives the date the database reads in its text, a member that is unset
keeps the old date. -/
def Field.updatesDate (f : Field DateText) (old new : Date) : Prop :=
  match f with
  | .value d => d.read = some new
  | _ => new = old

/-- The stored rooming lists satisfy the two `CHECK` constraints of their
table, as the rows of a database do: every request keeps this true from
`Store.init` on (`checksHold_apply`). -/
def Store.checksHold (s : Store) : Prop :=
  ∀ r ∈ s.roomingLists, statusCheck r.status = true ∧ agreementTypeCheck r.agreement_type = true

/-- A body that sets only `agreement_type`, to the empty string. -/
def emptyAgreementBody : RoomingListBody :=
  { closeBody with status := .undefined, agreement_type := .value "" }

/-- A complete body for a new booking. -/
def newBookingBody : BookingBody :=
  { hotelId := .value 5, eventId := .value 7, guestName := .value "New guest",
    guestPhoneNumber := .undefined, checkInDate := .value (isoDate "2024-03-01" 2024 3 1),
    checkOutDate := .value (isoDate "2024-03-04" 2024 3 4) }

/-- The body of `newBookingBody` with `hotelId` set to 0. -/
def zeroHotelBody : BookingBody :=
  { newBookingBody with hotelId := .value 0 }

/-- The row that creating `newBookingBody` in the sample store adds. -/
def newBookingRow : Booking :=
  { bookingId := 2, hotelId := 5, eventId := 7, guestName := "New guest",
    guestPhoneNumber := none, checkInDate := { year := 2024, month := 3, day := 1 },
    checkOutDate := { year := 2024, month := 3, day := 4 } }

/-- The body of `vipBody` with `rfpName` set to the empty string. -/
def emptyNameVipBody : RoomingListBody :=
  { vipBody with rfpName := .value "" }

/-! ## `clearAllData` and the requests that call it -/

theorem lookupSequence_bookings : lookupSequence "bookings_bookingId_seq" = none := by
  decide

/-- The first `ALTER SEQUENCE` of `clearAllData` names no sequence: the
function throws after its four `DELETE`s, whatever the store. -/
theorem clearAllData_eq (s : Store) :
    clearAllData s = (some (.undefinedTable "bookings_bookingid_seq"), s.emptied) := by
  have h : ∀ t : Store, alterSequenceRestart "bookings_bookingId_seq" t =
      .error (.undefinedTable "bookings_bookingid_seq") := by
    intro t
    have hf : foldIdentifier "bookings_bookingId_seq" = "bookings_bookingid_seq" := by decide
    simp only [alterSequenceRestart, lookupSequence_bookings, hf]
  simp only [clearAllData, h, Store.emptied]

theorem importSteps_eq (files : Files) (d : Db) :
    importSteps files d =
      (.error (.db (.undefinedTable "bookings_bookingid_seq")),
        { d with store := d.store.emptied }) := by
  simp only [importSteps, clearAllData_eq]

/-- Every import answers 500 and leaves the four tables empty and the
sequences where they were. -/
theorem dataInsert_eq (files : Files) (s : Store) :
    dataInsert files s =
      (.fail 500 "Failed to insert data from JSON files"
        (some (.db (.undefinedTable "bookings_bookingid_seq"))), s.emptied) := by
  simp only [dataInsert, importSteps_eq, Db.rollback]

theorem dataClear_eq (s : Store) :
    dataClear s = (.fail 500 "Failed to clear data" none, s.emptied) := by
  simp only [dataClear, clearAllData_eq]

/-- Steps 3 to 6 at the example, on the cleared store of a fresh database:
what the rest of the handler does with the three files when it is reached. -/
theorem importRows_sample :
    (importRows sampleFiles { store := Store.init, tx := Tx.empty }).1.toOption =
      some { events := 1, bookings := 2, roomingLists := 1, roomingListBookings := 1 } ∧
    (importRows sampleFiles { store := Store.init, tx := Tx.empty }).2.commit.events =
      [{ eventId := 10, eventName := "Event 10", description := none }] ∧
    (importRows sampleFiles { store := Store.init, tx := Tx.empty }).2.commit.bookings.map
      (fun b => b.bookingId) = [1, 2] ∧
    (importRows sampleFiles { store := Store.init, tx := Tx.empty }).2.commit.roomingLists.map
      (fun r => (r.roomingListId, r.status)) = [(100, some "Active")] ∧
    (importRows sampleFiles { store := Store.init, tx := Tx.empty }).2.commit.roomingListBookings
      = [{ id := 1, roomingListId := 100, bookingId := 1 }] ∧
    (getRoomingListBookings 100
      (importRows sampleFiles { store := Store.init, tx := Tx.empty }).2.commit).data?.map
        (fun l => l.data.map fun v => v.booking.bookingId) = some [1] := by
  refine ⟨?_, ?_, ?_, ?_, ?_, ?_⟩ <;> decide

/-! ## Claims on the bulk import -/

/-- C1 (the code at a failing input): on a store that holds rows, an import
that fails answers 500 and leaves the four tables empty, not as they were:
the rows were deleted through the pool, outside the transaction that the
handler rolls back. -/
theorem dataInsert_failure_deletes_rows :
    (dataInsert sampleFilesMissing sampleStore).1.status = 500 ∧
    (dataInsert sampleFilesMissing sampleStore).2.events = [] ∧
    (dataInsert sampleFilesMissing sampleStore).2.bookings = [] ∧
    (dataInsert sampleFilesMissing sampleStore).2.roomingLists = [] ∧
    (dataInsert sampleFilesMissing sampleStore).2.roomingListBookings = [] ∧
    sampleStore.events.length = 1 ∧ sampleStore.bookings.length = 1 ∧
    sampleStore.roomingLists.length = 1 ∧ sampleStore.roomingListBookings.length = 1 := by
  rw [dataInsert_eq]
  exact ⟨rfl, rfl, rfl, rfl, rfl, rfl, rfl, rfl, rfl⟩

/-- C2 (counterexample): with `rooming-lists.json` missing, on a store that
holds a booking, the import fails, and at the point the failure is raised the
connection of the handler sees no booking any more: a row has been deleted. -/
theorem importSteps_missing_file_deletes_rows :
    sampleFilesMissing.roomingLists = .absent ∧
    sampleStore.bookings.length = 1 ∧
    (importSteps sampleFilesMissing { store := sampleStore, tx := Tx.empty }).1.toOption = none ∧
    (importSteps sampleFilesMissing { store := sampleStore, tx := Tx.empty }).2.seen.bookings
      = [] := by
  rw [importSteps_eq]
  exact ⟨rfl, rfl, rfl, rfl⟩

/-- C2 (amended): if one of the three sources is absent, the import answers
500; at the point the failure is raised the transaction has inserted no row,
and the rows of the four tables have already been deleted, the clearing step
coming first. -/
theorem dataInsert_missing_file (files : Files) (s : Store)
    (h : files.roomingLists = .absent ∨ files.bookings = .absent ∨
      files.roomingListBookings = .absent) :
    (dataInsert files s).1.status = 500 ∧
    (importSteps files { store := s, tx := Tx.empty }).1.toOption = none ∧
    (importSteps files { store := s, tx := Tx.empty }).2.tx = Tx.empty ∧
    (importSteps files { store := s, tx := Tx.empty }).2.seen.events = [] ∧
    (importSteps files { store := s, tx := Tx.empty }).2.seen.bookings = [] ∧
    (importSteps files { store := s, tx := Tx.empty }).2.seen.roomingLists = [] ∧
    (importSteps files { store := s, tx := Tx.empty }).2.seen.roomingListBookings = [] := by
  rw [dataInsert_eq, importSteps_eq]
  exact ⟨rfl, rfl, rfl, rfl, rfl, rfl, rfl⟩

/-- C2 (amended) at the sample store, with `rooming-lists.json` missing. -/
theorem dataInsert_missing_file_witness :
    (sampleFilesMissing.roomingLists = .absent ∨ sampleFilesMissing.bookings = .absent ∨
      sampleFilesMissing.roomingListBookings = .absent) ∧
    (dataInsert sampleFilesMissing sampleStore).1.status = 500 ∧
    (importSteps sampleFilesMissing { store := sampleStore, tx := Tx.empty }).1.toOption
      = none ∧
    (importSteps sampleFilesMissing { store := sampleStore, tx := Tx.empty }).2.tx
      = Tx.empty ∧
    (importSteps sampleFilesMissing { store := sampleStore, tx := Tx.empty }).2.seen.events
      = [] ∧
    (importSteps sampleFilesMissing { store := sampleStore, tx := Tx.empty }).2.seen.bookings
      = [] ∧
    (importSteps sampleFilesMissing { store := sampleStore, tx := Tx.empty }).2.seen.roomingLists
      = [] ∧
    (importSteps sampleFilesMissing
      { store := sampleStore, tx := Tx.empty }).2.seen.roomingListBookings = [] :=
  ⟨Or.inl rfl, dataInsert_missing_file sampleFilesMissing sampleStore (Or.inl rfl)⟩

/-- C3: if a link of the RoomingListBookings input names a bookingId that no
record of the Bookings input carries, the import answers 500 and afterwards
events, bookings, rooming_lists and rooming_list_bookings have no rows. -/
theorem dataInsert_unknown_booking (files : Files) (s : Store) (ls : List LinkRecord)
    (l : LinkRecord) (hls : files.roomingListBookings = .records ls) (hl : l ∈ ls)
    (hb : ∀ bs, files.bookings = .records bs → ∀ b ∈ bs, b.bookingId ≠ l.bookingId) :
    (dataInsert files s).1.status = 500 ∧
    (dataInsert files s).2.events = [] ∧ (dataInsert files s).2.bookings = [] ∧
    (dataInsert files s).2.roomingLists = [] ∧
    (dataInsert files s).2.roomingListBookings = [] := by
  rw [dataInsert_eq]
  exact ⟨rfl, rfl, rfl, rfl, rfl⟩

/-- C3 at the sample store, with a link to booking 3 that the Bookings input lacks. -/
theorem dataInsert_unknown_booking_witness :
    (dataInsert sampleFilesDangling sampleStore).1.status = 500 ∧
    (dataInsert sampleFilesDangling sampleStore).2.events = [] ∧
    (dataInsert sampleFilesDangling sampleStore).2.bookings = [] ∧
    (dataInsert sampleFilesDangling sampleStore).2.roomingLists = [] ∧
    (dataInsert sampleFilesDangling sampleStore).2.roomingListBookings = [] :=
  dataInsert_unknown_booking sampleFilesDangling sampleStore [danglingLink] danglingLink rfl
    (List.mem_singleton.2 rfl)
    (by
      intro bs hbs b hbm
      have : bs = [sampleBooking 1 10 (isoDate "2024-01-02" 2024 1 2),
          sampleBooking 2 10 (isoDate "2024-01-03" 2024 1 3)] := by
        simp only [sampleFilesDangling, sampleFiles] at hbs
        cases hbs
        rfl
      subst this
      simp only [List.mem_cons, List.mem_singleton, List.not_mem_nil, or_false] at hbm
      rcases hbm with rfl | rfl <;> decide)

/-- C4 (the code at the example): the Bookings input names one distinct
event, 10, yet the import answers 500 and the events table holds no row
afterwards. -/
theorem dataInsert_derives_no_event :
    sampleFiles.bookings.array?.map uniqueEvents = some [.value 10] ∧
    (dataInsert sampleFiles Store.init).1.status = 500 ∧
    (dataInsert sampleFiles Store.init).2.events = [] := by
  rw [dataInsert_eq]
  exact ⟨by decide, rfl, rfl⟩

/-- C5 (the code at the example): the import of one rooming list, two
bookings of one event and one link answers 500 with no counts, and the status
handler reports 0, 0, 0 and 0 rows afterwards. -/
theorem dataInsert_reports_no_counts :
    (dataInsert sampleFiles Store.init).1.status = 500 ∧
    (dataInsert sampleFiles Store.init).1.data? = none ∧
    dataStatus (dataInsert sampleFiles Store.init).2 =
      .ok 200 { events := 0, bookings := 0, roomingLists := 0, roomingListBookings := 0 } := by
  rw [dataInsert_eq]
  exact ⟨rfl, rfl, rfl⟩

/-- C6 (the code at the example): after the import of the example, in which
booking 1 is linked to rooming list 100, the bookings of rooming list 100 are
the empty list, with count 0. -/
theorem getRoomingListBookings_after_import_empty :
    sampleFiles.roomingListBookings =
      .records [{ roomingListId := .value 100, bookingId := .value 1 }] ∧
    (dataInsert sampleFiles Store.init).1.status = 500 ∧
    getRoomingListBookings 100 (dataInsert sampleFiles Store.init).2 =
      .ok 200 { data := [], count := 0, roomingListId := 100 } := by
  rw [dataInsert_eq]
  exact ⟨rfl, rfl, rfl⟩

/-- C14 (the code at the example): the RoomingLists input holds rooming list
100, yet the import answers 500 and the rooming_lists table holds no row
afterwards. -/
theorem dataInsert_stores_no_rooming_list :
    sampleFiles.roomingLists = .records [sampleRoomingList] ∧
    sampleRoomingList.roomingListId = .value 100 ∧
    (dataInsert sampleFiles Store.init).1.status = 500 ∧
    (dataInsert sampleFiles Store.init).2.roomingLists = [] := by
  rw [dataInsert_eq]
  exact ⟨rfl, rfl, rfl, rfl⟩

/-- C15 (the code): no import answers 200; at the example, on a store whose
bookings sequence is at 2, the import answers 500 and leaves the sequence at
2, and the next `POST /bookings` answers 201 with bookingId 2. -/
theorem import_then_create_no_collision :
    (∀ files s, (dataInsert files s).1.status = 500 ∧
      (dataInsert files s).2.bookingsSeq = s.bookingsSeq) ∧
    sampleStore.bookingsSeq = 2 ∧
    (dataInsert sampleFiles sampleStore).2.bookingsSeq = 2 ∧
    (postBooking newBookingBody (dataInsert sampleFiles sampleStore).2).1 =
      .ok 201 newBookingRow ∧
    newBookingRow.bookingId = 2 := by
  refine ⟨fun files s => by rw [dataInsert_eq]; exact ⟨rfl, rfl⟩, rfl, ?_, ?_, rfl⟩
  · rw [dataInsert_eq]
    rfl
  · rw [dataInsert_eq]
    decide

/-- C16 (the code): no import answers 200; at the example, the first run on a
fresh database and the second run both answer 500 and leave the four tables
empty. -/
theorem dataInsert_twice_fails :
    (∀ files s, (dataInsert files s).1.status = 500) ∧
    (dataInsert sampleFiles Store.init).1.status = 500 ∧
    (dataInsert sampleFiles (dataInsert sampleFiles Store.init).2).1.status = 500 ∧
    (dataInsert sampleFiles (dataInsert sampleFiles Store.init).2).2 = Store.init := by
  refine ⟨fun files s => by rw [dataInsert_eq]; rfl, ?_, ?_, ?_⟩
  · rw [dataInsert_eq]
    rfl
  · rw [dataInsert_eq, dataInsert_eq]
    rfl
  · rw [dataInsert_eq, dataInsert_eq]
    rfl

/-! ## Lemmas on the statements -/

theorem except_bind_ok {ε α β : Type} {x : Except ε α} {f : α → Except ε β} {b : β} :
    (x >>= f) = .ok b ↔ ∃ a, x = .ok a ∧ f a = .ok b := by
  cases x <;> simp [bind, Except.bind]

theorem required_ok {α : Type} {column : String} {p : Option α} {v : α} :
    required column p = .ok v ↔ p = some v := by
  cases p <;> simp [required]

theorem bindInteger_ok {column : String} {p q : Option Int} :
    bindInteger column p = .ok q ↔ q = p ∧ ∀ n, p = some n → fitsInteger n = true := by
  cases p with
  | none =>
    simp only [bindInteger, reduceCtorEq, false_implies, implies_true, and_true]
    exact ⟨fun h => by cases h; rfl, fun h => by rw [h]⟩
  | some n =>
    by_cases h : fitsInteger n = true
    · simp only [bindInteger, h, if_true, Option.some.injEq, forall_eq', and_true]
      exact ⟨fun h => by cases h; rfl, fun h => by rw [h]⟩
    · simp only [bindInteger, h, Bool.false_eq_true, if_false, reduceCtorEq, Option.some.injEq,
        forall_eq', and_false]

theorem bindDate_ok {column : String} {p : Option DateText} {q : Option Date} :
    bindDate column p = .ok q ↔
      (p = none ∧ q = none) ∨ ∃ d v, p = some d ∧ d.read = some v ∧ q = some v := by
  cases p with
  | none =>
    simp only [bindDate, true_and, reduceCtorEq, false_and, exists_false, or_false]
    exact ⟨fun h => by cases h; rfl, fun h => by rw [h]⟩
  | some d =>
    cases hd : d.read with
    | none =>
      simp only [bindDate, hd, reduceCtorEq, false_and, Option.some.injEq, false_or, false_iff,
        not_exists, not_and]
      intro x v hx hv
      rw [← hx, hd] at hv
      cases hv
    | some v =>
      simp only [bindDate, hd, reduceCtorEq, false_and, Option.some.injEq, false_or]
      constructor
      · intro h
        cases h
        exact ⟨d, v, rfl, hd, rfl⟩
      · rintro ⟨x, w, hx, hw, hq⟩
        rw [← hx, hd] at hw
        cases hw
        rw [hq]

theorem fitVarchar_ok {n : Nat} {column : String} {p q : Option String} :
    fitVarchar n column p = .ok q ↔
      (p = none ∧ q = none) ∨ ∃ v, p = some v ∧ q = some (keptText n v) ∧ sendable v = true ∧
        (decide (v.length ≤ n) || (v.toList.drop n).all (fun c => c == ' ')) = true := by
  cases p with
  | none =>
    simp only [fitVarchar, true_and, reduceCtorEq, false_and, exists_false, or_false]
    exact ⟨fun h => by cases h; rfl, fun h => by rw [h]⟩
  | some v =>
    unfold fitVarchar
    by_cases hs : sendable v = true
    · by_cases hl : (decide (v.length ≤ n) || (v.toList.drop n).all (fun c => c == ' ')) = true
      · simp only [hs, Bool.not_true, Bool.false_eq_true, if_false, hl, if_true]
        constructor
        · intro h
          cases h
          exact Or.inr ⟨v, rfl, rfl, hs, hl⟩
        · rintro (⟨h, -⟩ | ⟨w, hw, hq, -, -⟩)
          · cases h
          · cases hw
            rw [hq]
      · simp only [hs, Bool.not_true, Bool.false_eq_true, if_false, hl]
        constructor
        · intro h
          cases h
        · rintro (⟨h, -⟩ | ⟨w, hw, -, -, hw2⟩)
          · cases h
          · cases hw
            exact absurd hw2 hl
    · have hs2 : (!sendable v) = true := by simpa using hs
      simp only [hs2, if_true]
      constructor
      · intro h
        cases h
      · rintro (⟨h, -⟩ | ⟨w, hw, -, hw1, -⟩)
        · cases h
        · cases hw
          exact absurd hw1 hs

theorem bindText_ok {column : String} {p q : Option String} :
    bindText column p = .ok q ↔ q = p ∧ ∀ v, p = some v → sendable v = true := by
  cases p with
  | none =>
    simp only [bindText, reduceCtorEq, false_implies, implies_true, and_true]
    exact ⟨fun h => by cases h; rfl, fun h => by rw [h]⟩
  | some v =>
    by_cases h : sendable v = true
    · simp only [bindText, h, if_true, Option.some.injEq, forall_eq', and_true]
      exact ⟨fun h => by cases h; rfl, fun h => by rw [h]⟩
    · simp only [bindText, h, Bool.false_eq_true, if_false, reduceCtorEq, Option.some.injEq,
        forall_eq', and_false]

theorem keptText_of_le {n : Nat} {v : String} (h : v.length ≤ n) : keptText n v = v := by
  simp [keptText, h]

theorem insertBookingRow_ok {seen : Store} {bookingId : Option Int} {p : BookingParams}
    {row : Booking} (h : insertBookingRow seen bookingId p = .ok row) :
    bookingId = some row.bookingId ∧ p.hotelId = some row.hotelId ∧
    p.eventId = some row.eventId ∧ p.guestName = some row.guestName ∧
    p.guestPhoneNumber = row.guestPhoneNumber ∧ p.checkInDate = some row.checkInDate ∧
    p.checkOutDate = some row.checkOutDate ∧
    ∀ b ∈ seen.bookings, b.bookingId ≠ row.bookingId := by
  obtain ⟨h1, e1, g1, ph1, ci1, co1⟩ := p
  cases bookingId <;> cases h1 <;> cases e1 <;> cases g1 <;> cases ci1 <;> cases co1 <;>
    simp [insertBookingRow, required, bind, Except.bind] at h
  split at h <;> simp [pure, Except.pure, throw, throwThe, MonadExceptOf.throw] at h
  subst h
  simp_all

theorem insertRoomingListRow_ok {seen : Store} {roomingListId : Option Int}
    {p : RoomingListParams} {row : RoomingList}
    (h : insertRoomingListRow seen roomingListId p = .ok row) :
    roomingListId = some row.roomingListId ∧ p.eventId = some row.eventId ∧
    p.hotelId = some row.hotelId ∧ p.rfpName = some row.rfpName ∧
    p.cutOffDate = some row.cutOffDate ∧ p.status = row.status ∧
    p.agreement_type = some row.agreement_type ∧
    statusCheck row.status = true ∧ agreementTypeCheck row.agreement_type = true ∧
    ∀ r ∈ seen.roomingLists, r.roomingListId ≠ row.roomingListId := by
  obtain ⟨e1, h1, n1, c1, st1, a1⟩ := p
  cases roomingListId <;> cases e1 <;> cases h1 <;> cases n1 <;> cases c1 <;> cases a1 <;>
    simp [insertRoomingListRow, required, bind, Except.bind, pure, Except.pure, throw, throwThe,
      MonadExceptOf.throw] at h
  split_ifs at h
  simp at h
  subst h
  simp_all

theorem insertLinkRow_ok {seen : Store} {id : Int} {roomingListId bookingId : Option Int}
    {row : RoomingListBooking}
    (h : insertLinkRow seen id roomingListId bookingId = .ok row) :
    row.id = id ∧ roomingListId = some row.roomingListId ∧ bookingId = some row.bookingId ∧
    (∀ l ∈ seen.roomingListBookings, l.id ≠ id) ∧
    (∀ l ∈ seen.roomingListBookings,
      ¬ (l.roomingListId = row.roomingListId ∧ l.bookingId = row.bookingId)) ∧
    (∃ r ∈ seen.roomingLists, r.roomingListId = row.roomingListId) ∧
    (∃ b ∈ seen.bookings, b.bookingId = row.bookingId) := by
  cases roomingListId <;> cases bookingId <;>
    simp [insertLinkRow, required, bind, Except.bind, pure, Except.pure, throw, throwThe,
      MonadExceptOf.throw] at h
  split_ifs at h
  simp at h
  subst h
  simp_all

theorem Field.toParam_eq_some {α : Type} {f : Field α} {v : α} :
    f.toParam = some v ↔ f = .value v := by
  cases f <;> simp [Field.toParam]

theorem Field.toParam_eq_none {α : Type} {f : Field α} :
    f.toParam = none ↔ ∀ v, f ≠ .value v := by
  cases f <;> simp [Field.toParam]

/-- What binding the parameters of a statement on `bookings` gives. -/
theorem bindBooking_ok {hotelId eventId : Option Int} {guestName guestPhoneNumber : Option String}
    {checkInDate checkOutDate : Option DateText} {p : BookingParams}
    (h : bindBooking hotelId eventId guestName guestPhoneNumber checkInDate checkOutDate
      = .ok p) :
    bindInteger "hotelId" hotelId = .ok p.hotelId ∧
    bindInteger "eventId" eventId = .ok p.eventId ∧
    fitVarchar 255 "guestName" guestName = .ok p.guestName ∧
    fitVarchar 20 "guestPhoneNumber" guestPhoneNumber = .ok p.guestPhoneNumber ∧
    bindDate "checkInDate" checkInDate = .ok p.checkInDate ∧
    bindDate "checkOutDate" checkOutDate = .ok p.checkOutDate := by
  simp only [bindBooking, except_bind_ok, pure, Except.pure, Except.ok.injEq] at h
  obtain ⟨a1, h1, a2, h2, a3, h3, a4, h4, a5, h5, a6, h6, rfl⟩ := h
  exact ⟨h1, h2, h3, h4, h5, h6⟩

/-- What binding the parameters of a statement on `rooming_lists` gives. -/
theorem bindRoomingList_ok {eventId hotelId : Option Int} {rfpName : Option String}
    {cutOffDate : Option DateText} {status agreement_type : Option String}
    {p : RoomingListParams}
    (h : bindRoomingList eventId hotelId rfpName cutOffDate status agreement_type = .ok p) :
    bindInteger "eventId" eventId = .ok p.eventId ∧
    bindInteger "hotelId" hotelId = .ok p.hotelId ∧
    fitVarchar 255 "rfpName" rfpName = .ok p.rfpName ∧
    bindDate "cutOffDate" cutOffDate = .ok p.cutOffDate ∧
    fitVarchar 50 "status" status = .ok p.status ∧
    fitVarchar 50 "agreement_type" agreement_type = .ok p.agreement_type := by
  simp only [bindRoomingList, except_bind_ok, pure, Except.pure, Except.ok.injEq] at h
  obtain ⟨a1, h1, a2, h2, a3, h3, a4, h4, a5, h5, a6, h6, rfl⟩ := h
  exact ⟨h1, h2, h3, h4, h5, h6⟩

/-- Binding succeeds when each parameter fits its column. -/
theorem bindRoomingList_of_fits {eventId hotelId : Option Int} {rfpName : Option String}
    {cutOffDate : Option DateText} {status agreement_type : Option String}
    {e h : Option Int} {n st a : Option String} {c : Option Date}
    (h1 : bindInteger "eventId" eventId = .ok e) (h2 : bindInteger "hotelId" hotelId = .ok h)
    (h3 : fitVarchar 255 "rfpName" rfpName = .ok n)
    (h4 : bindDate "cutOffDate" cutOffDate = .ok c)
    (h5 : fitVarchar 50 "status" status = .ok st)
    (h6 : fitVarchar 50 "agreement_type" agreement_type = .ok a) :
    bindRoomingList eventId hotelId rfpName cutOffDate status agreement_type =
      .ok { eventId := e, hotelId := h, rfpName := n, cutOffDate := c, status := st,
            agreement_type := a } := by
  simp only [bindRoomingList, h1, h2, h3, h4, h5, h6, bind, Except.bind, pure, Except.pure]

/-! ## Linking -/

theorem insertLinkRow_accepts (seen : Store) (id r b : Int)
    (hid : ∀ l ∈ seen.roomingListBookings, l.id ≠ id)
    (hno : ∀ l ∈ seen.roomingListBookings, ¬ (l.roomingListId = r ∧ l.bookingId = b))
    (hr : ∃ x ∈ seen.roomingLists, x.roomingListId = r)
    (hb : ∃ x ∈ seen.bookings, x.bookingId = b) :
    insertLinkRow seen id (some r) (some b) = .ok { id := id, roomingListId := r, bookingId := b } := by
  have h1 : (seen.roomingListBookings.any fun l => l.id == id) = false := by
    rw [Bool.eq_false_iff]
    intro h
    obtain ⟨l, hl, hh⟩ := List.any_eq_true.1 h
    exact hid l hl (by simpa using hh)
  have h2 : (seen.roomingListBookings.any fun l => l.roomingListId == r && l.bookingId == b)
      = false := by
    rw [Bool.eq_false_iff]
    intro h
    obtain ⟨l, hl, hh⟩ := List.any_eq_true.1 h
    exact hno l hl (by simpa using hh)
  have h3 : (seen.roomingLists.any fun x => x.roomingListId == r) = true := by
    obtain ⟨x, hx, hxr⟩ := hr
    exact List.any_eq_true.2 ⟨x, hx, by simpa using hxr⟩
  have h4 : (seen.bookings.any fun x => x.bookingId == b) = true := by
    obtain ⟨x, hx, hxb⟩ := hb
    exact List.any_eq_true.2 ⟨x, hx, by simpa using hxb⟩
  simp only [insertLinkRow, required, bind, Except.bind, h1, h2, h3, h4, pure, Except.pure]
  rfl

/-- The first link of a pair: the row is appended with the next sequence value. -/
theorem linkBooking_fresh {b r : Int} {s : Store}
    (hb : ∃ x ∈ s.bookings, x.bookingId = b) (hr : ∃ x ∈ s.roomingLists, x.roomingListId = r)
    (hno : ∀ l ∈ s.roomingListBookings, ¬ (l.roomingListId = r ∧ l.bookingId = b))
    (hseq : s.seqAhead) :
    linkBooking b r s = (.ok 200 "Booking linked to rooming list successfully",
      { s with
        roomingListBookingsSeq := s.roomingListBookingsSeq + 1
        roomingListBookings := s.roomingListBookings ++
          [{ id := s.roomingListBookingsSeq, roomingListId := r, bookingId := b }] }) := by
  have c1 : ((s.bookings.filter fun x => x.bookingId == b).length == 0) = false := by
    obtain ⟨x, hx, hxb⟩ := hb
    have : x ∈ s.bookings.filter fun x => x.bookingId == b :=
      List.mem_filter.2 ⟨hx, by simpa using hxb⟩
    have := List.length_pos_of_mem this
    simp only [beq_eq_false_iff_ne, ne_eq]
    omega
  have c2 : ((s.roomingLists.filter fun x => x.roomingListId == r).length == 0) = false := by
    obtain ⟨x, hx, hxr⟩ := hr
    have : x ∈ s.roomingLists.filter fun x => x.roomingListId == r :=
      List.mem_filter.2 ⟨hx, by simpa using hxr⟩
    have := List.length_pos_of_mem this
    simp only [beq_eq_false_iff_ne, ne_eq]
    omega
  have c3 : (s.roomingListBookings.filter fun l =>
      l.bookingId == b && l.roomingListId == r) = [] := by
    rw [List.filter_eq_nil_iff]
    intro l hl hh
    simp only [Bool.and_eq_true, beq_iff_eq] at hh
    exact hno l hl ⟨hh.2, hh.1⟩
  have hins := insertLinkRow_accepts
    { s with roomingListBookingsSeq := s.roomingListBookingsSeq + 1 }
    s.roomingListBookingsSeq r b (fun l hl => ne_of_lt (hseq l hl)) hno hr hb
  simp only [linkBooking, c1, c2, c3, List.length_nil, gt_iff_lt, lt_self_iff_false,
    Bool.false_eq_true, if_false, hins]

/-- Linking a pair that is already in the junction table is refused with a 400
and changes nothing. -/
theorem linkBooking_conflict (b r : Int) (s : Store)
    (hb : ∃ x ∈ s.bookings, x.bookingId = b) (hr : ∃ x ∈ s.roomingLists, x.roomingListId = r)
    (hl : ∃ l ∈ s.roomingListBookings, l.roomingListId = r ∧ l.bookingId = b) :
    linkBooking b r s = (.fail 400 "Booking already linked to this rooming list" none, s) := by
  have c1 : ((s.bookings.filter fun x => x.bookingId == b).length == 0) = false := by
    obtain ⟨x, hx, hxb⟩ := hb
    have : x ∈ s.bookings.filter fun x => x.bookingId == b :=
      List.mem_filter.2 ⟨hx, by simpa using hxb⟩
    have := List.length_pos_of_mem this
    simp only [beq_eq_false_iff_ne, ne_eq]
    omega
  have c2 : ((s.roomingLists.filter fun x => x.roomingListId == r).length == 0) = false := by
    obtain ⟨x, hx, hxr⟩ := hr
    have : x ∈ s.roomingLists.filter fun x => x.roomingListId == r :=
      List.mem_filter.2 ⟨hx, by simpa using hxr⟩
    have := List.length_pos_of_mem this
    simp only [beq_eq_false_iff_ne, ne_eq]
    omega
  have c3 : 0 < (s.roomingListBookings.filter fun l =>
      l.bookingId == b && l.roomingListId == r).length := by
    obtain ⟨l, hlm, h1, h2⟩ := hl
    exact List.length_pos_of_mem (List.mem_filter.2 ⟨hlm, by simp [h1, h2]⟩)
  simp only [linkBooking, c1, c2, gt_iff_lt, c3, Bool.false_eq_true, if_false, if_true]

/-- C7: in a store that holds booking b and rooming list r with no link
between them (the junction sequence being ahead of the ids in use, as the
handlers keep it), linking b to r twice in succession succeeds the first
time, answers 400 'Booking already linked to this rooming list' the second
time, and leaves exactly one junction row for the pair (r, b). -/
theorem linkBooking_twice (b r : Int) (s : Store)
    (hb : ∃ x ∈ s.bookings, x.bookingId = b) (hr : ∃ x ∈ s.roomingLists, x.roomingListId = r)
    (hno : ∀ l ∈ s.roomingListBookings, ¬ (l.roomingListId = r ∧ l.bookingId = b))
    (hseq : s.seqAhead) :
    (linkBooking b r s).1 = .ok 200 "Booking linked to rooming list successfully" ∧
    (linkBooking b r (linkBooking b r s).2).1 =
      .fail 400 "Booking already linked to this rooming list" none ∧
    ((linkBooking b r (linkBooking b r s).2).2.roomingListBookings.filter fun l =>
      decide (l.roomingListId = r ∧ l.bookingId = b)).length = 1 ∧
    (linkBooking b r (linkBooking b r s).2).2.roomingListBookings =
      s.roomingListBookings ++
        [{ id := s.roomingListBookingsSeq, roomingListId := r, bookingId := b }] := by
  have h1 := linkBooking_fresh hb hr hno hseq
  have h2 := linkBooking_conflict b r (linkBooking b r s).2
    (by rw [h1]; exact hb) (by rw [h1]; exact hr)
    (by
      rw [h1]
      exact ⟨{ id := s.roomingListBookingsSeq, roomingListId := r, bookingId := b },
        by simp, rfl, rfl⟩)
  refine ⟨by rw [h1], by rw [h2], ?_, by rw [h2, h1]⟩
  rw [h2, h1]
  have : (s.roomingListBookings.filter fun l =>
      decide (l.roomingListId = r ∧ l.bookingId = b)) = [] := by
    rw [List.filter_eq_nil_iff]
    intro l hl hh
    exact hno l hl (by simpa using hh)
  rw [List.filter_append, this]
  simp

/-- C7 at the sample store without its link, for booking 1 and rooming list 1. -/
theorem linkBooking_twice_witness :
    (linkBooking 1 1 sampleStoreUnlinked).1 =
      .ok 200 "Booking linked to rooming list successfully" ∧
    (linkBooking 1 1 (linkBooking 1 1 sampleStoreUnlinked).2).1 =
      .fail 400 "Booking already linked to this rooming list" none ∧
    ((linkBooking 1 1 (linkBooking 1 1 sampleStoreUnlinked).2).2.roomingListBookings.filter
      fun l => decide (l.roomingListId = 1 ∧ l.bookingId = 1)).length = 1 ∧
    (linkBooking 1 1 (linkBooking 1 1 sampleStoreUnlinked).2).2.roomingListBookings =
      sampleStoreUnlinked.roomingListBookings ++
        [{ id := sampleStoreUnlinked.roomingListBookingsSeq, roomingListId := 1,
           bookingId := 1 }] :=
  linkBooking_twice 1 1 sampleStoreUnlinked
    ⟨_, List.mem_singleton.2 rfl, rfl⟩ ⟨_, List.mem_singleton.2 rfl, rfl⟩
    (by intro l hl; simp [sampleStoreUnlinked] at hl)
    (by intro l hl; simp [sampleStoreUnlinked] at hl)


/-! ## The junction sequence stays ahead of the junction ids -/

theorem seqAhead_init : Store.init.seqAhead := by
  intro l hl
  simp [Store.init] at hl

theorem seqAhead_clearAllData (s : Store) : (clearAllData s).2.seqAhead := by
  intro l hl
  rw [clearAllData_eq] at hl
  simp [Store.emptied] at hl

theorem seqAhead_deleteRoomingList (id : Int) (s : Store) (h : s.seqAhead) :
    (deleteRoomingList id s).2.seqAhead := by
  intro l hl
  have hs : (deleteRoomingList id s).2 = { s with
      roomingLists := s.roomingLists.filter fun r => !(r.roomingListId == id)
      roomingListBookings := s.roomingListBookings.filter fun l =>
        !((s.roomingLists.filter fun r => r.roomingListId == id).any fun r =>
          r.roomingListId == l.roomingListId) } := by
    unfold deleteRoomingList
    dsimp only
    split <;> rfl
  rw [hs] at hl ⊢
  exact h l (List.mem_of_mem_filter hl)

theorem seqAhead_linkBooking (b r : Int) (s : Store) (h : s.seqAhead) :
    (linkBooking b r s).2.seqAhead := by
  unfold linkBooking
  dsimp only
  split_ifs
  · exact h
  · exact h
  · exact h
  · split
    · rename_i row hrow
      have hid := (insertLinkRow_ok hrow).1
      intro l hl
      simp only [List.mem_append, List.mem_singleton] at hl
      rcases hl with hl | rfl
      · exact lt_trans (h l hl) (by simp)
      · simp [hid]
    · intro l hl
      exact lt_trans (h l hl) (by simp)
theorem seqAhead_dataInsert (files : Files) (s : Store) : (dataInsert files s).2.seqAhead := by
  intro l hl
  rw [dataInsert_eq] at hl
  simp [Store.emptied] at hl

/-! ## Claims on the rooming-list handlers -/

theorem mem_leftJoinEvents {es : List Event} {l : RoomingListBooking} {b : Booking}
    {x : JoinedRow} (h : x ∈ leftJoinEvents es l b) : x.rlb = l ∧ x.b = b := by
  unfold leftJoinEvents at h
  split at h
  · simp only [List.mem_singleton] at h
    subst h
    exact ⟨rfl, rfl⟩
  · obtain ⟨e, -, rfl⟩ := List.mem_map.1 h
    exact ⟨rfl, rfl⟩

/-- The store that `DELETE FROM rooming_lists WHERE "roomingListId" = $1` leaves. -/
theorem deleteRoomingList_store (id : Int) (s : Store) :
    (deleteRoomingList id s).2 = { s with
      roomingLists := s.roomingLists.filter fun r => !(r.roomingListId == id)
      roomingListBookings := s.roomingListBookings.filter fun l =>
        !((s.roomingLists.filter fun r => r.roomingListId == id).any fun r =>
          r.roomingListId == l.roomingListId) } := by
  unfold deleteRoomingList
  dsimp only
  split <;> rfl

/-- C8: deleting an existing rooming list r removes the junction rows whose
roomingListId is r and no other junction row, leaves the bookings as they
were; afterwards the bookings of r are the empty list and r is not found. -/
theorem deleteRoomingList_cascade (r : Int) (s : Store)
    (hr : ∃ x ∈ s.roomingLists, x.roomingListId = r) :
    (deleteRoomingList r s).1.status = 200 ∧
    (deleteRoomingList r s).2.roomingListBookings =
      s.roomingListBookings.filter (fun l => decide (l.roomingListId ≠ r)) ∧
    (deleteRoomingList r s).2.bookings = s.bookings ∧
    getRoomingListBookings r (deleteRoomingList r s).2 = .ok 200 ⟨[], 0, r⟩ ∧
    getRoomingList r (deleteRoomingList r s).2 = .fail 404 "Rooming list not found" none := by
  obtain ⟨x, hx, hxr⟩ := hr
  have hxd : x ∈ s.roomingLists.filter fun y => y.roomingListId == r :=
    List.mem_filter.2 ⟨hx, by simpa using hxr⟩
  have hst : (deleteRoomingList r s).1.status = 200 := by
    unfold deleteRoomingList
    dsimp only
    split
    · rename_i hnil
      rw [hnil] at hxd
      simp at hxd
    · rfl
  have hl : (deleteRoomingList r s).2.roomingListBookings =
      s.roomingListBookings.filter (fun l => decide (l.roomingListId ≠ r)) := by
    rw [deleteRoomingList_store]
    apply List.filter_congr
    intro l _
    rw [Bool.eq_iff_iff]
    simp only [Bool.not_eq_true', List.any_eq_false, List.mem_filter, beq_iff_eq, and_imp,
      decide_eq_true_eq]
    constructor
    · intro h heq
      exact h x hx hxr (hxr.trans heq.symm)
    · intro h y _ hy heq
      exact h (heq.symm.trans hy)
  have hrl : ∀ y ∈ (deleteRoomingList r s).2.roomingLists, y.roomingListId ≠ r := by
    rw [deleteRoomingList_store]
    intro y hy
    simpa using (List.mem_filter.1 hy).2
  refine ⟨hst, hl, by rw [deleteRoomingList_store], ?_, ?_⟩
  · have hq : roomingListBookingsQuery (deleteRoomingList r s).2 r = [] := by
      unfold roomingListBookingsQuery
      dsimp only
      have hsel : ((deleteRoomingList r s).2.roomingListBookings.flatMap fun rlb =>
          ((deleteRoomingList r s).2.bookings.filter fun b => rlb.bookingId == b.bookingId).flatMap
            (leftJoinEvents (deleteRoomingList r s).2.events rlb)).filter
          (fun row => row.rlb.roomingListId == r) = [] := by
        rw [List.filter_eq_nil_iff]
        intro row hrow
        obtain ⟨l, hlm, hrow⟩ := List.mem_flatMap.1 hrow
        obtain ⟨b, -, hrow⟩ := List.mem_flatMap.1 hrow
        rw [(mem_leftJoinEvents hrow).1]
        rw [hl] at hlm
        simpa using (List.mem_filter.1 hlm).2
      rw [hsel]
      rfl
    simp only [getRoomingListBookings, hq, List.length_nil]
  · have hq : roomingListQuery (deleteRoomingList r s).2 r = [] := by
      unfold roomingListQuery
      dsimp only
      rw [List.filter_eq_nil_iff]
      intro row hrow
      obtain ⟨y, hy, hrow⟩ := List.mem_flatMap.1 hrow
      have : row.roomingList = y := by
        split at hrow
        · simp only [List.mem_singleton] at hrow
          rw [hrow]
        · obtain ⟨e, -, rfl⟩ := List.mem_map.1 hrow
          rfl
      rw [this]
      simpa using hrl y hy
    simp only [getRoomingList, hq]

/-- C8 at the sample store and rooming list 1. -/
theorem deleteRoomingList_cascade_witness :
    (deleteRoomingList 1 sampleStore).1.status = 200 ∧
    (deleteRoomingList 1 sampleStore).2.roomingListBookings =
      sampleStore.roomingListBookings.filter (fun l => decide (l.roomingListId ≠ 1)) ∧
    (deleteRoomingList 1 sampleStore).2.bookings = sampleStore.bookings ∧
    getRoomingListBookings 1 (deleteRoomingList 1 sampleStore).2 = .ok 200 ⟨[], 0, 1⟩ ∧
    getRoomingList 1 (deleteRoomingList 1 sampleStore).2 =
      .fail 404 "Rooming list not found" none :=
  deleteRoomingList_cascade 1 sampleStore ⟨_, List.mem_singleton.2 rfl, rfl⟩

/-- C10: a creation whose agreement_type is not one of leisure, staff, artist
is answered with a 400, whatever the other members are, and the store is
unchanged. -/
theorem postRoomingList_bad_agreement_type (body : RoomingListBody) (s : Store)
    (h : ∀ v ∈ agreementTypes, body.agreement_type ≠ .value v) :
    (postRoomingList body s).1.status = 400 ∧ (postRoomingList body s).2 = s := by
  unfold postRoomingList
  dsimp only
  split_ifs with h1 h2 h3
  · exact ⟨rfl, rfl⟩
  · exact ⟨rfl, rfl⟩
  · exact ⟨rfl, rfl⟩
  · exfalso
    cases ha : body.agreement_type with
    | value v =>
      rw [ha] at h2
      simp only [includes, Bool.not_eq_true', decide_eq_false_iff_not, not_not] at h2
      exact h v h2 ha
    | null => simp [ha, includes] at h2
    | undefined => simp [ha, includes] at h2

/-- C10 at a complete body whose agreement_type is "vip". -/
theorem postRoomingList_bad_agreement_type_witness :
    (postRoomingList vipBody sampleStore).1.status = 400 ∧
    (postRoomingList vipBody sampleStore).2 = sampleStore :=
  postRoomingList_bad_agreement_type vipBody sampleStore (by decide)


/-! ## Partial update of a rooming list -/

theorem fitVarchar_of_le {n : Nat} {column v : String} (hs : sendable v = true)
    (hl : v.length ≤ n) : fitVarchar n column (some v) = .ok (some v) := by
  simp [fitVarchar, hs, hl, keptText]

theorem fitVarchar_status {column v : String} (h : v ∈ statuses) :
    fitVarchar 50 column (some v) = .ok (some v) := by
  simp only [statuses, List.mem_cons, List.mem_singleton, List.not_mem_nil, or_false] at h
  rcases h with rfl | rfl | rfl <;> exact fitVarchar_of_le (by decide) (by decide)

theorem fitVarchar_agreementType {column v : String} (h : v ∈ agreementTypes) :
    fitVarchar 50 column (some v) = .ok (some v) := by
  simp only [agreementTypes, List.mem_cons, List.mem_singleton, List.not_mem_nil, or_false] at h
  rcases h with rfl | rfl | rfl <;> exact fitVarchar_of_le (by decide) (by decide)

theorem fitVarchar_toParam {n : Nat} {column : String} {f : Field String}
    (h : ∀ v, f = .value v → fitVarchar n column (some v) = .ok (some v)) :
    fitVarchar n column f.toParam = .ok f.toParam := by
  cases f with
  | value v => exact h v rfl
  | null => rfl
  | undefined => rfl

theorem bindInteger_toParam {column : String} {f : Field Int}
    (h : ∀ n, f = .value n → fitsInteger n = true) :
    bindInteger column f.toParam = .ok f.toParam := by
  cases f with
  | value n => simp [Field.toParam, bindInteger, h n rfl]
  | null => rfl
  | undefined => rfl

/-- The date parameter that a member gives, when the database reads a date in it. -/
theorem bindDate_toParam {column : String} {f : Field DateText}
    (h : ∀ d, f = .value d → d.read ≠ none) :
    bindDate column f.toParam = .ok (f.toParam.bind fun d => d.read) := by
  cases f with
  | value d =>
    cases hd : d.read with
    | none => exact absurd hd (h d rfl)
    | some v => simp [Field.toParam, bindDate, hd]
  | null => rfl
  | undefined => rfl

/-- The parameters that a body whose members fit their columns is bound to. -/
theorem bindRoomingList_body (body : RoomingListBody)
    (hst : ∀ v, body.status = .value v → v ∈ statuses)
    (hagr : ∀ v, body.agreement_type = .value v → v ∈ agreementTypes)
    (hev : ∀ n, body.eventId = .value n → fitsInteger n = true)
    (hho : ∀ n, body.hotelId = .value n → fitsInteger n = true)
    (hname : ∀ v, body.rfpName = .value v → sendable v = true ∧ v.length ≤ 255)
    (hdate : ∀ d, body.cutOffDate = .value d → d.read ≠ none) :
    bindRoomingList body.eventId.toParam body.hotelId.toParam body.rfpName.toParam
        body.cutOffDate.toParam body.status.toParam body.agreement_type.toParam =
      .ok { eventId := body.eventId.toParam, hotelId := body.hotelId.toParam,
            rfpName := body.rfpName.toParam,
            cutOffDate := body.cutOffDate.toParam.bind fun d => d.read,
            status := body.status.toParam, agreement_type := body.agreement_type.toParam } :=
  bindRoomingList_of_fits (bindInteger_toParam hev) (bindInteger_toParam hho)
    (fitVarchar_toParam fun v hv => fitVarchar_of_le (hname v hv).1 (hname v hv).2)
    (bindDate_toParam hdate)
    (fitVarchar_toParam fun v hv => fitVarchar_status (hst v hv))
    (fitVarchar_toParam fun v hv => fitVarchar_agreementType (hagr v hv))

theorem setClause_updates (body : RoomingListBody) (x : RoomingList) :
    let new := setClause
      { eventId := body.eventId.toParam, hotelId := body.hotelId.toParam,
        rfpName := body.rfpName.toParam,
        cutOffDate := body.cutOffDate.toParam.bind fun d => d.read,
        status := body.status.toParam, agreement_type := body.agreement_type.toParam } x
    (∀ d, body.cutOffDate = .value d → d.read ≠ none) →
    new.roomingListId = x.roomingListId ∧
    body.eventId.updates x.eventId new.eventId ∧
    body.hotelId.updates x.hotelId new.hotelId ∧
    body.rfpName.updates x.rfpName new.rfpName ∧
    body.cutOffDate.updatesDate x.cutOffDate new.cutOffDate ∧
    (match body.status with
      | .value v => new.status = some v
      | _ => new.status = x.status) ∧
    body.agreement_type.updates x.agreement_type new.agreement_type := by
  obtain ⟨e, h, n, c, st, a⟩ := body
  intro new hdate
  have hc : Field.updatesDate c x.cutOffDate new.cutOffDate := by
    cases c with
    | value d =>
      cases hd : d.read with
      | none => exact absurd hd (hdate d rfl)
      | some v => simp [new, setClause, coalesce, Field.toParam, Field.updatesDate, hd]
    | null => simp [new, setClause, coalesce, Field.toParam, Field.updatesDate]
    | undefined => simp [new, setClause, coalesce, Field.toParam, Field.updatesDate]
  refine ⟨rfl, ?_, ?_, ?_, hc, ?_, ?_⟩
  · cases e <;> simp [new, setClause, coalesce, Field.toParam, Field.updates]
  · cases h <;> simp [new, setClause, coalesce, Field.toParam, Field.updates]
  · cases n <;> simp [new, setClause, coalesce, Field.toParam, Field.updates]
  · cases st <;> simp [new, setClause, coalesceNull, Field.toParam]
  · cases a <;> simp [new, setClause, coalesce, Field.toParam, Field.updates]

/-- The `UPDATE` is accepted when the enumerated members that are set are
members of their sets and the stored rows satisfy their `CHECK`s. -/
theorem updateRoomingLists_accepts (id : Int) {p : RoomingListParams} {s : Store}
    (hchk : s.checksHold)
    (hst : ∀ v, p.status = some v → v ∈ statuses)
    (hagr : ∀ v, p.agreement_type = some v → v ∈ agreementTypes) :
    updateRoomingLists s id p =
      .ok (s.roomingLists.map fun r => if r.roomingListId == id then setClause p r else r,
        (s.roomingLists.filter fun r => r.roomingListId == id).map (setClause p)) := by
  have c1 : (((s.roomingLists.filter fun r => r.roomingListId == id).map (setClause p)).any
      fun r => !statusCheck r.status) = false := by
    rw [List.any_eq_false]
    intro y hy
    obtain ⟨x, hx, rfl⟩ := List.mem_map.1 hy
    have hxs := (hchk x (List.mem_of_mem_filter hx)).1
    cases hps : p.status with
    | some v => simp [setClause, coalesceNull, hps, statusCheck, hst v hps]
    | none => simpa [setClause, coalesceNull, hps] using hxs
  have c2 : (((s.roomingLists.filter fun r => r.roomingListId == id).map (setClause p)).any
      fun r => !agreementTypeCheck r.agreement_type) = false := by
    rw [List.any_eq_false]
    intro y hy
    obtain ⟨x, hx, rfl⟩ := List.mem_map.1 hy
    have hxa := (hchk x (List.mem_of_mem_filter hx)).2
    cases hpa : p.agreement_type with
    | some v => simp [setClause, coalesce, hpa, agreementTypeCheck, hagr v hpa]
    | none => simpa [setClause, coalesce, hpa] using hxa
  simp only [updateRoomingLists, c1, c2, Bool.false_eq_true, if_false]

/-- C9 (counterexample): a body that sets only `eventId`, to a number the
`INTEGER` column cannot hold, passes both validations of the handler, yet the
update of the existing rooming list 1 is refused: the answer is a 500, the
store is unchanged and the stored eventId is not the one supplied. -/
theorem putRoomingList_integer_out_of_range :
    bigEventBody.eventId = .value 2147483648 ∧
    putRoomingListRejects bigEventBody = none ∧
    (putRoomingList 1 bigEventBody sampleStore).1 =
      .fail 500 "Failed to update rooming list" none ∧
    (putRoomingList 1 bigEventBody sampleStore).2 = sampleStore ∧
    sampleStore.roomingLists.map (fun r => (r.roomingListId, r.eventId)) = [(1, 7)] := by
  decide

/-- C9 (amended): for an existing rooming list (stored rows satisfying the
table's CHECK constraints) and a body whose status and agreement_type, when
set, are members of their sets and whose other members, when set, fit their
columns (eventId and hotelId in the range of INTEGER, rfpName a text of at
most 255 characters, cutOffDate a text in which the database reads a date),
the update answers 200; in the stored row each of eventId, hotelId, rfpName,
cutOffDate, status and agreement_type that is unset keeps its prior value
and each that is set takes the supplied value, cutOffDate as the date read in
it; every other rooming list and every other table is unchanged. -/
theorem putRoomingList_partial (id : Int) (body : RoomingListBody) (s : Store)
    (hex : ∃ x ∈ s.roomingLists, x.roomingListId = id) (hchk : s.checksHold)
    (hst : ∀ v, body.status = .value v → v ∈ statuses)
    (hagr : ∀ v, body.agreement_type = .value v → v ∈ agreementTypes)
    (hev : ∀ n, body.eventId = .value n → fitsInteger n = true)
    (hho : ∀ n, body.hotelId = .value n → fitsInteger n = true)
    (hname : ∀ v, body.rfpName = .value v → sendable v = true ∧ v.length ≤ 255)
    (hdate : ∀ d, body.cutOffDate = .value d → d.read ≠ none) :
    (putRoomingList id body s).1.status = 200 ∧
    List.Forall₂
      (fun old new =>
        if old.roomingListId = id then
          new.roomingListId = old.roomingListId ∧
          body.eventId.updates old.eventId new.eventId ∧
          body.hotelId.updates old.hotelId new.hotelId ∧
          body.rfpName.updates old.rfpName new.rfpName ∧
          body.cutOffDate.updatesDate old.cutOffDate new.cutOffDate ∧
          (match body.status with
            | .value v => new.status = some v
            | _ => new.status = old.status) ∧
          body.agreement_type.updates old.agreement_type new.agreement_type
        else new = old)
      s.roomingLists (putRoomingList id body s).2.roomingLists ∧
    (putRoomingList id body s).2.events = s.events ∧
    (putRoomingList id body s).2.bookings = s.bookings ∧
    (putRoomingList id body s).2.roomingListBookings = s.roomingListBookings := by
  have hv1 : (body.agreement_type.truthyStr && !includes agreementTypes body.agreement_type)
      = false := by
    cases ha : body.agreement_type with
    | value v => simp [Field.truthyStr, includes, hagr v ha]
    | null => rfl
    | undefined => rfl
  have hv2 : (body.status.truthyStr && !includes statuses body.status) = false := by
    cases hs : body.status with
    | value v => simp [Field.truthyStr, includes, hst v hs]
    | null => rfl
    | undefined => rfl
  have hbind := bindRoomingList_body body hst hagr hev hho hname hdate
  obtain ⟨p, hp⟩ : ∃ p : RoomingListParams, p =
      { eventId := body.eventId.toParam, hotelId := body.hotelId.toParam,
        rfpName := body.rfpName.toParam,
        cutOffDate := body.cutOffDate.toParam.bind fun d => d.read,
        status := body.status.toParam, agreement_type := body.agreement_type.toParam } :=
    ⟨_, rfl⟩
  rw [← hp] at hbind
  have hupd := updateRoomingLists_accepts id (p := p) hchk
    (fun v hv => hst v (Field.toParam_eq_some.1 (by rw [hp] at hv; exact hv)))
    (fun v hv => hagr v (Field.toParam_eq_some.1 (by rw [hp] at hv; exact hv)))
  obtain ⟨x, hx, hxid⟩ := hex
  have hxf : x ∈ s.roomingLists.filter fun r => r.roomingListId == id :=
    List.mem_filter.2 ⟨hx, by simpa using hxid⟩
  obtain ⟨y, ys, hys⟩ : ∃ y ys, (s.roomingLists.filter fun r => r.roomingListId == id) = y :: ys := by
    cases hf : s.roomingLists.filter fun r => r.roomingListId == id with
    | nil => rw [hf] at hxf; simp at hxf
    | cons y ys => exact ⟨y, ys, rfl⟩
  rw [hys] at hupd
  have hput : putRoomingList id body s = (.ok 200 (setClause p y), { s with
      roomingLists := s.roomingLists.map fun r =>
        if r.roomingListId == id then setClause p r else r }) := by
    simp only [putRoomingList, hv1, hv2, Bool.false_eq_true, if_false, hbind, hupd, List.map_cons]
  rw [hput]
  refine ⟨rfl, ?_, rfl, rfl, rfl⟩
  dsimp only
  rw [List.forall₂_map_right_iff]
  apply List.forall₂_same.2
  intro r _
  by_cases hr : r.roomingListId = id
  · have hb : (r.roomingListId == id) = true := by simpa using hr
    rw [if_pos hr, if_pos hb, hp]
    exact setClause_updates body r hdate
  · have hb : ¬ (r.roomingListId == id) = true := by simpa using hr
    rw [if_neg hr, if_neg hb]

/-- C9 (amended) at the sample store, for the body that sets only status to "Closed". -/
theorem putRoomingList_partial_witness :
    (putRoomingList 1 closeBody sampleStore).1.status = 200 ∧
    List.Forall₂
      (fun (old new : RoomingList) =>
        if old.roomingListId = 1 then
          new.roomingListId = old.roomingListId ∧
          closeBody.eventId.updates old.eventId new.eventId ∧
          closeBody.hotelId.updates old.hotelId new.hotelId ∧
          closeBody.rfpName.updates old.rfpName new.rfpName ∧
          closeBody.cutOffDate.updatesDate old.cutOffDate new.cutOffDate ∧
          (match closeBody.status with
            | .value v => new.status = some v
            | _ => new.status = old.status) ∧
          closeBody.agreement_type.updates old.agreement_type new.agreement_type
        else new = old)
      sampleStore.roomingLists (putRoomingList 1 closeBody sampleStore).2.roomingLists ∧
    (putRoomingList 1 closeBody sampleStore).2.events = sampleStore.events ∧
    (putRoomingList 1 closeBody sampleStore).2.bookings = sampleStore.bookings ∧
    (putRoomingList 1 closeBody sampleStore).2.roomingListBookings =
      sampleStore.roomingListBookings :=
  putRoomingList_partial 1 closeBody sampleStore ⟨_, List.mem_singleton.2 rfl, rfl⟩
    (by
      intro x hx
      simp only [sampleStore, List.mem_singleton] at hx
      subst hx
      decide)
    (by
      intro v hv
      simp only [closeBody, Field.value.injEq] at hv
      subst hv
      decide)
    (by intro v hv; simp [closeBody] at hv)
    (by intro v hv; simp [closeBody] at hv)
    (by intro v hv; simp [closeBody] at hv)
    (by intro v hv; simp [closeBody] at hv)
    (by intro v hv; simp [closeBody] at hv)

/-! ## Stored rooming lists satisfy their `CHECK` constraints -/

theorem checksHold_init : Store.init.checksHold := by
  intro x hx
  simp [Store.init] at hx

theorem checksHold_clearAllData (s : Store) : (clearAllData s).2.checksHold := by
  intro x hx
  rw [clearAllData_eq] at hx
  simp [Store.emptied] at hx

theorem checksHold_deleteRoomingList (id : Int) (s : Store) (h : s.checksHold) :
    (deleteRoomingList id s).2.checksHold := by
  intro x hx
  rw [deleteRoomingList_store] at hx
  exact h x (List.mem_of_mem_filter hx)

theorem checksHold_postRoomingList (body : RoomingListBody) (s : Store) (h : s.checksHold) :
    (postRoomingList body s).2.checksHold := by
  unfold postRoomingList
  dsimp only
  split_ifs
  · exact h
  · exact h
  · exact h
  · split
    · exact h
    · split
      · rename_i row hrow
        have hk := insertRoomingListRow_ok hrow
        intro x hx
        simp only [List.mem_append, List.mem_singleton] at hx
        rcases hx with hx | rfl
        · exact h x hx
        · exact ⟨hk.2.2.2.2.2.2.2.1, hk.2.2.2.2.2.2.2.2.1⟩
      · exact h

theorem checksHold_putRoomingList (id : Int) (body : RoomingListBody) (s : Store)
    (h : s.checksHold) : (putRoomingList id body s).2.checksHold := by
  have key : ∀ p table returned, updateRoomingLists s id p = .ok (table, returned) →
      ∀ x ∈ table, statusCheck x.status = true ∧ agreementTypeCheck x.agreement_type = true := by
    intro p table returned hu x hx
    unfold updateRoomingLists at hu
    dsimp only at hu
    split_ifs at hu with c1 c2
    simp only [Except.ok.injEq, Prod.mk.injEq] at hu
    obtain ⟨rfl, -⟩ := hu
    obtain ⟨r, hr, rfl⟩ := List.mem_map.1 hx
    by_cases hid : (r.roomingListId == id) = true
    · rw [if_pos hid]
      have hmem : setClause p r ∈
          (s.roomingLists.filter fun r => r.roomingListId == id).map (setClause p) :=
        List.mem_map_of_mem _ (List.mem_filter.2 ⟨hr, hid⟩)
      rw [Bool.not_eq_true, List.any_eq_false] at c1 c2
      exact ⟨by simpa using c1 _ hmem, by simpa using c2 _ hmem⟩
    · rw [if_neg hid]
      exact h r hr
  unfold putRoomingList
  split_ifs
  · exact h
  · exact h
  · split
    · exact h
    · rename_i p hp
      split
      · exact h
      · rename_i table hu
        exact key p table [] hu
      · rename_i table row rest hu
        exact key p table (row :: rest) hu

theorem checksHold_dataInsert (files : Files) (s : Store) : (dataInsert files s).2.checksHold := by
  intro x hx
  rw [dataInsert_eq] at hx
  simp [Store.emptied] at hx

/-! ## Validation of the enumerated members -/

/-- A creation that the validations reject never reaches the `INSERT`. -/
theorem postRoomingList_of_rejects {body : RoomingListBody} {m : String} (s : Store)
    (h : postRoomingListRejects body = some m) :
    postRoomingList body s = (.fail 400 m none, s) := by
  unfold postRoomingListRejects at h
  unfold postRoomingList
  dsimp only at h ⊢
  split_ifs at h ⊢ <;> simp_all

/-- A creation that passes the validations is handed to the store: the answer
is no 400. -/
theorem postRoomingList_of_passes {body : RoomingListBody} (s : Store)
    (h : postRoomingListRejects body = none) :
    (postRoomingList body s).1.status ≠ 400 := by
  unfold postRoomingListRejects at h
  unfold postRoomingList
  dsimp only at h ⊢
  split_ifs at h ⊢
  split
  · simp [Reply.status]
  · split <;> simp [Reply.status]

/-- An update that the validations reject never reaches the `UPDATE`. -/
theorem putRoomingList_of_rejects {body : RoomingListBody} {m : String} (id : Int) (s : Store)
    (h : putRoomingListRejects body = some m) :
    putRoomingList id body s = (.fail 400 m none, s) := by
  unfold putRoomingListRejects at h
  unfold putRoomingList
  split_ifs at h ⊢ <;> simp_all

/-- An update that passes the validations is answered from the `UPDATE`. -/
theorem putRoomingList_of_passes {body : RoomingListBody} (id : Int) (s : Store)
    (h : putRoomingListRejects body = none) :
    putRoomingList id body s =
      match bindRoomingList body.eventId.toParam body.hotelId.toParam body.rfpName.toParam
          body.cutOffDate.toParam body.status.toParam body.agreement_type.toParam with
      | .error _ => (.fail 500 "Failed to update rooming list" none, s)
      | .ok p =>
        match updateRoomingLists s id p with
        | .error _ => (.fail 500 "Failed to update rooming list" none, s)
        | .ok (table, []) =>
          (.fail 404 "Rooming list not found" none, { s with roomingLists := table })
        | .ok (table, row :: _) => (.ok 200 row, { s with roomingLists := table }) := by
  unfold putRoomingListRejects at h
  unfold putRoomingList
  split_ifs at h ⊢
  rfl

/-- A creation is rejected by the validations whenever its status is supplied
outside the closed set or its agreement_type is not a member of the closed set. -/
theorem postRoomingListRejects_enum (body : RoomingListBody)
    (h : (body.status ≠ .undefined ∧ ∀ v ∈ statuses, body.status ≠ .value v) ∨
      ∀ v ∈ agreementTypes, body.agreement_type ≠ .value v) :
    ∃ m, postRoomingListRejects body = some m := by
  unfold postRoomingListRejects
  dsimp only
  split_ifs with h1 h2 h3
  · exact ⟨_, rfl⟩
  · exact ⟨_, rfl⟩
  · exact ⟨_, rfl⟩
  · exfalso
    rcases h with ⟨hu, hs⟩ | ha
    · cases hst : body.status with
      | undefined => exact hu hst
      | null => simp [hst, Field.withDefault, includes] at h3
      | value v =>
        rw [hst] at h3
        simp only [Field.withDefault, includes, Bool.not_eq_true', decide_eq_false_iff_not,
          not_not] at h3
        exact hs v h3 hst
    · cases hat : body.agreement_type with
      | undefined => simp [hat, includes] at h2
      | null => simp [hat, includes] at h2
      | value v =>
        rw [hat] at h2
        simp only [includes, Bool.not_eq_true', decide_eq_false_iff_not, not_not] at h2
        exact ha v h2 hat

/-- An update is rejected by the validations whenever status or agreement_type
is a non-empty string outside its closed set. -/
theorem putRoomingListRejects_enum (body : RoomingListBody) (v : String) (hv : v ≠ "")
    (h : (body.status = .value v ∧ v ∉ statuses) ∨
      (body.agreement_type = .value v ∧ v ∉ agreementTypes)) :
    ∃ m, putRoomingListRejects body = some m := by
  unfold putRoomingListRejects
  split_ifs with h1 h2
  · exact ⟨_, rfl⟩
  · exact ⟨_, rfl⟩
  · exfalso
    rcases h with ⟨hs, hn⟩ | ⟨ha, hn⟩
    · rw [hs] at h2
      simp [Field.truthyStr, includes, hv, hn] at h2
    · rw [ha] at h1
      simp [Field.truthyStr, includes, hv, hn] at h1

/-- C11 (evaluation at the failing inputs): an update whose status, or whose
agreement_type, is the empty string (a value outside the closed set) passes
both validations, so the handler issues its `UPDATE`; the store refuses the
row and the answer is a 500, not a 400. -/
theorem putRoomingList_empty_string_reaches_store :
    emptyStatusBody.status = .value "" ∧ "" ∉ statuses ∧
    putRoomingListRejects emptyStatusBody = none ∧
    (putRoomingList 1 emptyStatusBody sampleStore).1 =
      .fail 500 "Failed to update rooming list" none ∧
    emptyAgreementBody.agreement_type = .value "" ∧ "" ∉ agreementTypes ∧
    putRoomingListRejects emptyAgreementBody = none ∧
    (putRoomingList 1 emptyAgreementBody sampleStore).1 =
      .fail 500 "Failed to update rooming list" none := by
  decide

/-! ## Creating a booking and reading it back -/

/-- What a creation answered with 201 has done: the row carries the members of
the body as their columns store them and the next value of the sequence, and
it is appended to the table. -/
theorem postBooking_created {body : BookingBody} {s : Store} {row : Booking}
    (h : (postBooking body s).1 = .ok 201 row) :
    row.bookingId = s.bookingsSeq ∧
    body.hotelId = .value row.hotelId ∧ body.eventId = .value row.eventId ∧
    (∃ g, body.guestName = .value g ∧ row.guestName = keptText 255 g) ∧
    (∃ ci, body.checkInDate = .value ci ∧ ci.read = some row.checkInDate) ∧
    (∃ co, body.checkOutDate = .value co ∧ co.read = some row.checkOutDate) ∧
    (∀ b ∈ s.bookings, b.bookingId ≠ row.bookingId) ∧
    (postBooking body s).2 =
      { s with bookingsSeq := s.bookingsSeq + 1, bookings := s.bookings ++ [row] } := by
  unfold postBooking at h ⊢
  dsimp only at h ⊢
  split_ifs at h ⊢ with hreq
  split at h
  · simp at h
  · rename_i p hbind
    split at h
    · rename_i created hins
      simp only [Reply.ok.injEq, true_and] at h
      subst h
      obtain ⟨k1, k2, k3, k4, -, k6, k7, k8⟩ := insertBookingRow_ok hins
      obtain ⟨b1, b2, b3, -, b5, b6⟩ := bindBooking_ok hbind
      simp only [Option.some.injEq] at k1
      rw [k2] at b1
      rw [k3] at b2
      rw [k4] at b3
      rw [k6] at b5
      rw [k7] at b6
      refine ⟨k1.symm, ?_, ?_, ?_, ?_, ?_, k8, rfl⟩
      · exact Field.toParam_eq_some.1 (bindInteger_ok.1 b1).1.symm
      · exact Field.toParam_eq_some.1 (bindInteger_ok.1 b2).1.symm
      · rcases fitVarchar_ok.1 b3 with ⟨-, hn⟩ | ⟨v, hv, hq, -, -⟩
        · cases hn
        · exact ⟨v, Field.toParam_eq_some.1 hv, Option.some.inj hq⟩
      · rcases bindDate_ok.1 b5 with ⟨-, hn⟩ | ⟨d, v, hd, hdv, hq⟩
        · cases hn
        · cases hq
          exact ⟨d, Field.toParam_eq_some.1 hd, hdv⟩
      · rcases bindDate_ok.1 b6 with ⟨-, hn⟩ | ⟨d, v, hd, hdv, hq⟩
        · cases hn
        · cases hq
          exact ⟨d, Field.toParam_eq_some.1 hd, hdv⟩
    · simp at h

/-- Right after a row has been appended under a fresh identifier, the query by
that identifier yields the row, joined with the first event of its eventId. -/
theorem bookingQuery_appended (s : Store) (row : Booking)
    (hfresh : ∀ b ∈ s.bookings, b.bookingId ≠ row.bookingId) :
    ∃ view rest,
      bookingQuery { s with bookingsSeq := s.bookingsSeq + 1, bookings := s.bookings ++ [row] }
        row.bookingId = view :: rest ∧
      view.booking = row ∧
      view.eventName =
        ((s.events.filter fun e => row.eventId == e.eventId).head?).map fun e => e.eventName := by
  unfold bookingQuery
  dsimp only
  rw [List.flatMap_append, List.filter_append]
  have hold : ((s.bookings.flatMap fun b =>
      match s.events.filter (fun e => b.eventId == e.eventId) with
      | [] => [({ booking := b, eventName := none } : BookingView)]
      | es => es.map fun e => { booking := b, eventName := some e.eventName }).filter
      fun r => r.booking.bookingId == row.bookingId) = [] := by
    rw [List.filter_eq_nil_iff]
    intro r hr
    obtain ⟨b, hb, hr⟩ := List.mem_flatMap.1 hr
    have : r.booking = b := by
      split at hr
      · simp only [List.mem_singleton] at hr
        rw [hr]
      · obtain ⟨e, -, rfl⟩ := List.mem_map.1 hr
        rfl
    rw [this]
    simpa using hfresh b hb
  rw [hold, List.nil_append, List.flatMap_singleton]
  cases hes : s.events.filter (fun e => row.eventId == e.eventId) with
  | nil =>
    refine ⟨{ booking := row, eventName := none }, [], ?_, rfl, rfl⟩
    simp
  | cons e es =>
    refine ⟨{ booking := row, eventName := some e.eventName },
      (es.map fun e => ({ booking := row, eventName := some e.eventName } : BookingView)),
      ?_, rfl, rfl⟩
    simp

/-- C12 (counterexample): on the sample store, the creation of a booking whose
checkInDate is the text "2024-03-01" answers 201 with bookingId 2; the member
checkInDate of the returned record is the stored date as the driver renders
it, not that text, and the record read back by get-by-id is not the record
the creation returned: it has the member eventName in addition. -/
theorem getBooking_adds_eventName :
    (postBooking newBookingBody sampleStore).1.status = 201 ∧
    (postBooking newBookingBody sampleStore).1.data?.map (fun b => b.bookingId) = some 2 ∧
    Json.ofDateText newBookingBody.checkInDate = .str "2024-03-01" ∧
    (postBooking newBookingBody sampleStore).1.data?.map
        (fun b => b.toJson.lookup "checkInDate") =
      some (some (.date { year := 2024, month := 3, day := 1 })) ∧
    (getBooking 2 (postBooking newBookingBody sampleStore).2).status = 200 ∧
    (getBooking 2 (postBooking newBookingBody sampleStore).2).data?.map BookingView.toJson ≠
      (postBooking newBookingBody sampleStore).1.data?.map Booking.toJson := by
  decide

/-- C12 (amended): when a booking creation is answered with 201, the returned
record's checkInDate and checkOutDate are the dates that the database reads in
the values of the request body, and a get-by-id on the returned bookingId
right afterwards answers 200 with the created record plus one member,
eventName: the name of the event that has the booking's eventId, or null when
there is none. -/
theorem postBooking_then_getBooking (body : BookingBody) (s : Store) (row : Booking)
    (h : (postBooking body s).1 = .ok 201 row) :
    (∃ ci, body.checkInDate = .value ci ∧ ci.read = some row.checkInDate) ∧
    (∃ co, body.checkOutDate = .value co ∧ co.read = some row.checkOutDate) ∧
    ∃ view, getBooking row.bookingId (postBooking body s).2 = .ok 200 view ∧
      view.booking = row ∧
      view.eventName =
        ((s.events.filter fun e => row.eventId == e.eventId).head?).map (fun e => e.eventName) ∧
      view.toJson = row.toJson ++ [("eventName", Json.ofText view.eventName)] := by
  obtain ⟨-, -, -, -, hci, hco, hfresh, hs⟩ := postBooking_created h
  obtain ⟨view, rest, hq, hb, he⟩ := bookingQuery_appended s row hfresh
  refine ⟨hci, hco, view, ?_, hb, he, ?_⟩
  · rw [hs]
    simp only [getBooking, hq]
  · simp only [BookingView.toJson, hb]

/-- C12 (amended) at the sample store, for a complete new booking. -/
theorem postBooking_then_getBooking_witness :
    (postBooking newBookingBody sampleStore).1 = .ok 201 newBookingRow ∧
    (∃ ci, newBookingBody.checkInDate = .value ci ∧ ci.read = some newBookingRow.checkInDate) ∧
    (∃ co, newBookingBody.checkOutDate = .value co ∧
      co.read = some newBookingRow.checkOutDate) ∧
    ∃ view, getBooking newBookingRow.bookingId (postBooking newBookingBody sampleStore).2 =
        .ok 200 view ∧
      view.booking = newBookingRow ∧
      view.eventName =
        ((sampleStore.events.filter fun e => newBookingRow.eventId == e.eventId).head?).map
          (fun e => e.eventName) ∧
      view.toJson = newBookingRow.toJson ++ [("eventName", Json.ofText view.eventName)] :=
  ⟨by decide, postBooking_then_getBooking newBookingBody sampleStore newBookingRow (by decide)⟩

/-! ## The junction table stays sound -/

/-- Soundness of the junction table passes to a store whose junction rows are
among the old ones, in order, and in which the rows they refer to are still
stored. -/
theorem linksValid_of {s t : Store}
    (hl : t.roomingListBookings.Sublist s.roomingListBookings)
    (hr : ∀ l ∈ t.roomingListBookings, ∀ r ∈ s.roomingLists,
      r.roomingListId = l.roomingListId → ∃ x ∈ t.roomingLists, x.roomingListId = l.roomingListId)
    (hb : ∀ l ∈ t.roomingListBookings, ∀ b ∈ s.bookings,
      b.bookingId = l.bookingId → ∃ x ∈ t.bookings, x.bookingId = l.bookingId)
    (h : s.linksValid) : t.linksValid := by
  obtain ⟨hn, hf⟩ := h
  refine ⟨List.Nodup.sublist (hl.map _) hn, ?_⟩
  intro l hlm
  obtain ⟨⟨r, hrm, hre⟩, ⟨b, hbm, hbe⟩⟩ := hf l (hl.subset hlm)
  exact ⟨hr l hlm r hrm hre, hb l hlm b hbm hbe⟩

/-- Soundness of the junction table passes to a store with the same junction
rows, rooming lists and bookings. -/
theorem linksValid_congr {s t : Store} (hl : t.roomingListBookings = s.roomingListBookings)
    (hr : t.roomingLists = s.roomingLists) (hb : t.bookings = s.bookings)
    (h : s.linksValid) : t.linksValid := by
  unfold Store.linksValid at h ⊢
  rw [hl, hr, hb]
  exact h

theorem linksValid_init : Store.init.linksValid := by
  refine ⟨by simp [Store.init], ?_⟩
  intro l hl
  simp [Store.init] at hl

theorem linksValid_of_noRows {s : Store} (h : s.noRows) : s.linksValid := by
  obtain ⟨-, -, -, h4⟩ := h
  unfold Store.linksValid
  rw [h4]
  exact ⟨by simp, by intro l hl; simp at hl⟩

theorem linksValid_postEvent (body : EventBody) (s : Store) (h : s.linksValid) :
    (postEvent body s).2.linksValid := by
  refine linksValid_congr ?_ ?_ ?_ h <;>
  · unfold postEvent
    dsimp only
    repeat' split
    all_goals rfl

theorem linksValid_putEvent (id : Int) (body : EventBody) (s : Store) (h : s.linksValid) :
    (putEvent id body s).2.linksValid := by
  refine linksValid_congr ?_ ?_ ?_ h <;>
  · unfold putEvent
    dsimp only
    repeat' split
    all_goals rfl

theorem linksValid_deleteEvent (id : Int) (s : Store) (h : s.linksValid) :
    (deleteEvent id s).2.linksValid := by
  refine linksValid_congr ?_ ?_ ?_ h <;>
  · unfold deleteEvent
    dsimp only
    split <;> rfl

theorem linksValid_postBooking (body : BookingBody) (s : Store) (h : s.linksValid) :
    (postBooking body s).2.linksValid := by
  have key : (postBooking body s).2.roomingListBookings = s.roomingListBookings ∧
      (postBooking body s).2.roomingLists = s.roomingLists ∧
      ∀ b ∈ s.bookings, b ∈ (postBooking body s).2.bookings := by
    unfold postBooking
    dsimp only
    split_ifs
    · exact ⟨rfl, rfl, fun b hb => hb⟩
    · split
      · exact ⟨rfl, rfl, fun b hb => hb⟩
      · split
        · exact ⟨rfl, rfl, fun b hb => List.mem_append_left _ hb⟩
        · exact ⟨rfl, rfl, fun b hb => hb⟩
  obtain ⟨k1, k2, k3⟩ := key
  refine linksValid_of (by rw [k1]) ?_ ?_ h
  · intro l _ r hr hre
    exact ⟨r, by rw [k2]; exact hr, hre⟩
  · intro l _ b hb hbe
    exact ⟨b, k3 b hb, hbe⟩

/-- The store an update of the bookings leaves: the store as it was when a
parameter does not fit its column, else the rows of the identifier rewritten. -/
theorem putBooking_store (id : Int) (body : BookingBody) (s : Store) :
    (putBooking id body s).2 = s ∨ ∃ p, (putBooking id body s).2 = { s with
      bookings := s.bookings.map fun b => if b.bookingId == id then setBooking p b else b } := by
  unfold putBooking
  dsimp only
  split
  · exact Or.inl rfl
  · rename_i p _
    refine Or.inr ⟨p, ?_⟩
    split <;> rfl

theorem linksValid_putBooking (id : Int) (body : BookingBody) (s : Store) (h : s.linksValid) :
    (putBooking id body s).2.linksValid := by
  rcases putBooking_store id body s with hs | ⟨p, hs⟩
  · rw [hs]
    exact h
  · rw [hs]
    refine linksValid_of
      (show List.Sublist _ s.roomingListBookings from List.Sublist.refl _) ?_ ?_ h
    · intro l _ r hr hre
      exact ⟨r, hr, hre⟩
    · intro l _ b hb hbe
      refine ⟨if b.bookingId == id then setBooking p b else b,
        List.mem_map_of_mem _ hb, ?_⟩
      split
      · simpa [setBooking] using hbe
      · exact hbe

theorem deleteBooking_store (id : Int) (s : Store) :
    (deleteBooking id s).2 = { s with
      bookings := s.bookings.filter fun b => !(b.bookingId == id)
      roomingListBookings := s.roomingListBookings.filter fun l =>
        !((s.bookings.filter fun b => b.bookingId == id).any fun b =>
          b.bookingId == l.bookingId) } := by
  unfold deleteBooking
  dsimp only
  split <;> rfl

theorem linksValid_deleteBooking (id : Int) (s : Store) (h : s.linksValid) :
    (deleteBooking id s).2.linksValid := by
  rw [deleteBooking_store]
  refine linksValid_of (List.filter_sublist _) ?_ ?_ h
  · intro l _ r hr hre
    exact ⟨r, hr, hre⟩
  · intro l hl b hb hbe
    refine ⟨b, List.mem_filter.2 ⟨hb, ?_⟩, hbe⟩
    have hkeep := (List.mem_filter.1 hl).2
    simp only [Bool.not_eq_true', List.any_eq_false, List.mem_filter, beq_iff_eq, and_imp] at hkeep
    simp only [Bool.not_eq_true', beq_eq_false_iff_ne, ne_eq]
    intro hid
    exact hkeep b hb hid hbe

theorem linksValid_postRoomingList (body : RoomingListBody) (s : Store) (h : s.linksValid) :
    (postRoomingList body s).2.linksValid := by
  have key : (postRoomingList body s).2.roomingListBookings = s.roomingListBookings ∧
      (postRoomingList body s).2.bookings = s.bookings ∧
      ∀ r ∈ s.roomingLists, r ∈ (postRoomingList body s).2.roomingLists := by
    unfold postRoomingList
    dsimp only
    split_ifs
    · exact ⟨rfl, rfl, fun b hb => hb⟩
    · exact ⟨rfl, rfl, fun b hb => hb⟩
    · exact ⟨rfl, rfl, fun b hb => hb⟩
    · split
      · exact ⟨rfl, rfl, fun b hb => hb⟩
      · split
        · exact ⟨rfl, rfl, fun b hb => List.mem_append_left _ hb⟩
        · exact ⟨rfl, rfl, fun b hb => hb⟩
  obtain ⟨k1, k2, k3⟩ := key
  refine linksValid_of (by rw [k1]) ?_ ?_ h
  · intro l _ r hr hre
    exact ⟨r, k3 r hr, hre⟩
  · intro l _ b hb hbe
    exact ⟨b, by rw [k2]; exact hb, hbe⟩

theorem linksValid_putRoomingList (id : Int) (body : RoomingListBody) (s : Store)
    (h : s.linksValid) : (putRoomingList id body s).2.linksValid := by
  have key : (putRoomingList id body s).2.roomingListBookings = s.roomingListBookings ∧
      (putRoomingList id body s).2.bookings = s.bookings ∧
      ∀ r ∈ s.roomingLists, ∃ x ∈ (putRoomingList id body s).2.roomingLists,
        x.roomingListId = r.roomingListId := by
    have hupd : ∀ p table returned, updateRoomingLists s id p = .ok (table, returned) →
        ∀ r ∈ s.roomingLists, ∃ x ∈ table, x.roomingListId = r.roomingListId := by
      intro p table returned hu r hr
      unfold updateRoomingLists at hu
      dsimp only at hu
      split_ifs at hu
      simp only [Except.ok.injEq, Prod.mk.injEq] at hu
      obtain ⟨rfl, -⟩ := hu
      refine ⟨_, List.mem_map_of_mem _ hr, ?_⟩
      split <;> rfl
    unfold putRoomingList
    split_ifs
    · exact ⟨rfl, rfl, fun r hr => ⟨r, hr, rfl⟩⟩
    · exact ⟨rfl, rfl, fun r hr => ⟨r, hr, rfl⟩⟩
    · split
      · exact ⟨rfl, rfl, fun r hr => ⟨r, hr, rfl⟩⟩
      · rename_i p _
        split
        · exact ⟨rfl, rfl, fun r hr => ⟨r, hr, rfl⟩⟩
        · rename_i table hu
          exact ⟨rfl, rfl, hupd p table [] hu⟩
        · rename_i table row rest hu
          exact ⟨rfl, rfl, hupd p table (row :: rest) hu⟩
  obtain ⟨k1, k2, k3⟩ := key
  refine linksValid_of (by rw [k1]) ?_ ?_ h
  · intro l _ r hr hre
    obtain ⟨x, hx, hxe⟩ := k3 r hr
    exact ⟨x, hx, hxe.trans hre⟩
  · intro l _ b hb hbe
    exact ⟨b, by rw [k2]; exact hb, hbe⟩

theorem linksValid_deleteRoomingList (id : Int) (s : Store) (h : s.linksValid) :
    (deleteRoomingList id s).2.linksValid := by
  rw [deleteRoomingList_store]
  refine linksValid_of (List.filter_sublist _) ?_ ?_ h
  · intro l hl r hr hre
    refine ⟨r, List.mem_filter.2 ⟨hr, ?_⟩, hre⟩
    have hkeep := (List.mem_filter.1 hl).2
    simp only [Bool.not_eq_true', List.any_eq_false, List.mem_filter, beq_iff_eq, and_imp] at hkeep
    simp only [Bool.not_eq_true', beq_eq_false_iff_ne, ne_eq]
    intro hid
    exact hkeep r hr hid hre
  · intro l _ b hb hbe
    exact ⟨b, hb, hbe⟩

theorem linksValid_unlinkBooking (b r : Int) (s : Store) (h : s.linksValid) :
    (unlinkBooking b r s).2.linksValid := by
  have hs : (unlinkBooking b r s).2 = { s with
      roomingListBookings := s.roomingListBookings.filter fun l =>
        !(l.bookingId == b && l.roomingListId == r) } := by
    unfold unlinkBooking
    dsimp only
    split <;> rfl
  rw [hs]
  refine linksValid_of (List.filter_sublist _) ?_ ?_ h
  · intro l _ x hx hxe
    exact ⟨x, hx, hxe⟩
  · intro l _ x hx hxe
    exact ⟨x, hx, hxe⟩

theorem linksValid_linkBooking (b r : Int) (s : Store) (h : s.linksValid) :
    (linkBooking b r s).2.linksValid := by
  unfold linkBooking
  dsimp only
  split_ifs
  · exact h
  · exact h
  · exact h
  · split
    · rename_i row hrow
      obtain ⟨-, -, -, -, k5, k6, k7⟩ := insertLinkRow_ok hrow
      obtain ⟨hn, hf⟩ := h
      refine ⟨?_, ?_⟩
      · simp only [List.map_append, List.map_cons, List.map_nil]
        refine List.Nodup.append hn (List.nodup_singleton _) ?_
        intro p hp hp2
        simp only [List.mem_singleton] at hp2
        subst hp2
        obtain ⟨l, hl, hle⟩ := List.mem_map.1 hp
        simp only [RoomingListBooking.pair, Prod.mk.injEq] at hle
        exact k5 l hl hle
      · intro l hl
        simp only [List.mem_append, List.mem_singleton] at hl
        rcases hl with hl | rfl
        · exact hf l hl
        · exact ⟨k6, k7⟩
    · exact h

theorem noRows_emptied (s : Store) : s.emptied.noRows :=
  ⟨rfl, rfl, rfl, rfl⟩

theorem linksValid_dataInsert (files : Files) (s : Store) : (dataInsert files s).2.linksValid := by
  rw [dataInsert_eq]
  exact linksValid_of_noRows (noRows_emptied s)

theorem linksValid_dataClear (s : Store) : (dataClear s).2.linksValid := by
  rw [dataClear_eq]
  exact linksValid_of_noRows (noRows_emptied s)

/-- Every request keeps the junction table sound. -/
theorem linksValid_apply (op : Op) (s : Store) (h : s.linksValid) : (op.apply s).linksValid := by
  cases op with
  | createEvent body => exact linksValid_postEvent body s h
  | updateEvent id body => exact linksValid_putEvent id body s h
  | deleteEvent id => exact linksValid_deleteEvent id s h
  | createBooking body => exact linksValid_postBooking body s h
  | updateBooking id body => exact linksValid_putBooking id body s h
  | deleteBooking id => exact linksValid_deleteBooking id s h
  | createRoomingList body => exact linksValid_postRoomingList body s h
  | updateRoomingList id body => exact linksValid_putRoomingList id body s h
  | deleteRoomingList id => exact linksValid_deleteRoomingList id s h
  | link b r => exact linksValid_linkBooking b r s h
  | unlink b r => exact linksValid_unlinkBooking b r s h
  | clear => exact linksValid_dataClear s
  | bulkImport files => exact linksValid_dataInsert files s

theorem linksValid_run (ops : List Op) (s : Store) (h : s.linksValid) :
    (run ops s).linksValid := by
  induction ops generalizing s with
  | nil => exact h
  | cons op ops ih => exact ih (op.apply s) (linksValid_apply op s h)

/-- C13: in every store reached from the empty store by a sequence of create,
update, delete, link, unlink, clear and bulk-import requests, the junction
table holds at most one row for each pair (roomingListId, bookingId), and
every row refers to a rooming list and a booking that are in the store. -/
theorem reachable_links_sound (ops : List Op) :
    ((run ops Store.init).roomingListBookings.map RoomingListBooking.pair).Nodup ∧
    ∀ l ∈ (run ops Store.init).roomingListBookings,
      (∃ r ∈ (run ops Store.init).roomingLists, r.roomingListId = l.roomingListId) ∧
      ∃ b ∈ (run ops Store.init).bookings, b.bookingId = l.bookingId :=
  linksValid_run ops Store.init linksValid_init


/-! ## The two store conditions hold in every reachable store

`Store.seqAhead` and `Store.checksHold` are assumed of the store by the
theorems on linking and on the partial update; every request keeps them. -/

/-- A request that leaves the junction table and its sequence alone. -/
theorem seqAhead_of_eq {s t : Store} (h : s.seqAhead)
    (ht : t.roomingListBookings = s.roomingListBookings ∧
      t.roomingListBookingsSeq = s.roomingListBookingsSeq) : t.seqAhead := by
  intro l hl
  rw [ht.1] at hl
  rw [ht.2]
  exact h l hl

/-- A request that leaves the rooming lists alone. -/
theorem checksHold_of_eq {s t : Store} (h : s.checksHold)
    (ht : t.roomingLists = s.roomingLists) : t.checksHold := by
  intro x hx
  rw [ht] at hx
  exact h x hx

theorem postEvent_frame (body : EventBody) (s : Store) :
    (postEvent body s).2.roomingListBookings = s.roomingListBookings ∧
    (postEvent body s).2.roomingListBookingsSeq = s.roomingListBookingsSeq ∧
    (postEvent body s).2.roomingLists = s.roomingLists := by
  unfold postEvent
  dsimp only
  repeat' split
  all_goals exact ⟨rfl, rfl, rfl⟩

theorem putEvent_frame (id : Int) (body : EventBody) (s : Store) :
    (putEvent id body s).2.roomingListBookings = s.roomingListBookings ∧
    (putEvent id body s).2.roomingListBookingsSeq = s.roomingListBookingsSeq ∧
    (putEvent id body s).2.roomingLists = s.roomingLists := by
  unfold putEvent
  dsimp only
  repeat' split
  all_goals exact ⟨rfl, rfl, rfl⟩

theorem deleteEvent_frame (id : Int) (s : Store) :
    (deleteEvent id s).2.roomingListBookings = s.roomingListBookings ∧
    (deleteEvent id s).2.roomingListBookingsSeq = s.roomingListBookingsSeq ∧
    (deleteEvent id s).2.roomingLists = s.roomingLists := by
  unfold deleteEvent
  dsimp only
  split <;> exact ⟨rfl, rfl, rfl⟩

theorem postBooking_frame (body : BookingBody) (s : Store) :
    (postBooking body s).2.roomingListBookings = s.roomingListBookings ∧
    (postBooking body s).2.roomingListBookingsSeq = s.roomingListBookingsSeq ∧
    (postBooking body s).2.roomingLists = s.roomingLists := by
  unfold postBooking
  dsimp only
  repeat' split
  all_goals exact ⟨rfl, rfl, rfl⟩

theorem putBooking_frame (id : Int) (body : BookingBody) (s : Store) :
    (putBooking id body s).2.roomingListBookings = s.roomingListBookings ∧
    (putBooking id body s).2.roomingListBookingsSeq = s.roomingListBookingsSeq ∧
    (putBooking id body s).2.roomingLists = s.roomingLists := by
  rcases putBooking_store id body s with hs | ⟨p, hs⟩ <;> rw [hs] <;> exact ⟨rfl, rfl, rfl⟩

theorem postRoomingList_frame (body : RoomingListBody) (s : Store) :
    (postRoomingList body s).2.roomingListBookings = s.roomingListBookings ∧
    (postRoomingList body s).2.roomingListBookingsSeq = s.roomingListBookingsSeq := by
  unfold postRoomingList
  dsimp only
  repeat' split
  all_goals exact ⟨rfl, rfl⟩

theorem putRoomingList_frame (id : Int) (body : RoomingListBody) (s : Store) :
    (putRoomingList id body s).2.roomingListBookings = s.roomingListBookings ∧
    (putRoomingList id body s).2.roomingListBookingsSeq = s.roomingListBookingsSeq := by
  unfold putRoomingList
  repeat' split
  all_goals exact ⟨rfl, rfl⟩

theorem seqAhead_deleteBooking (id : Int) (s : Store) (h : s.seqAhead) :
    (deleteBooking id s).2.seqAhead := by
  intro l hl
  rw [deleteBooking_store] at hl ⊢
  exact h l (List.mem_of_mem_filter hl)

theorem unlinkBooking_store (b r : Int) (s : Store) :
    (unlinkBooking b r s).2 = { s with
      roomingListBookings := s.roomingListBookings.filter fun l =>
        !(l.bookingId == b && l.roomingListId == r) } := by
  unfold unlinkBooking
  dsimp only
  split <;> rfl

theorem seqAhead_unlinkBooking (b r : Int) (s : Store) (h : s.seqAhead) :
    (unlinkBooking b r s).2.seqAhead := by
  intro l hl
  rw [unlinkBooking_store] at hl ⊢
  exact h l (List.mem_of_mem_filter hl)

theorem seqAhead_dataClear (s : Store) : (dataClear s).2.seqAhead := by
  intro l hl
  rw [dataClear_eq] at hl
  simp [Store.emptied] at hl

theorem checksHold_dataClear (s : Store) : (dataClear s).2.checksHold := by
  intro x hx
  rw [dataClear_eq] at hx
  simp [Store.emptied] at hx

theorem linkBooking_roomingLists (b r : Int) (s : Store) :
    (linkBooking b r s).2.roomingLists = s.roomingLists := by
  unfold linkBooking
  dsimp only
  repeat' split
  all_goals rfl

/-- Every request keeps the junction sequence ahead of the junction ids. -/
theorem seqAhead_apply (op : Op) (s : Store) (h : s.seqAhead) : (op.apply s).seqAhead := by
  cases op with
  | createEvent body =>
    exact seqAhead_of_eq h ⟨(postEvent_frame body s).1, (postEvent_frame body s).2.1⟩
  | updateEvent id body =>
    exact seqAhead_of_eq h ⟨(putEvent_frame id body s).1, (putEvent_frame id body s).2.1⟩
  | deleteEvent id =>
    exact seqAhead_of_eq h ⟨(deleteEvent_frame id s).1, (deleteEvent_frame id s).2.1⟩
  | createBooking body =>
    exact seqAhead_of_eq h ⟨(postBooking_frame body s).1, (postBooking_frame body s).2.1⟩
  | updateBooking id body =>
    exact seqAhead_of_eq h ⟨(putBooking_frame id body s).1, (putBooking_frame id body s).2.1⟩
  | deleteBooking id => exact seqAhead_deleteBooking id s h
  | createRoomingList body => exact seqAhead_of_eq h (postRoomingList_frame body s)
  | updateRoomingList id body => exact seqAhead_of_eq h (putRoomingList_frame id body s)
  | deleteRoomingList id => exact seqAhead_deleteRoomingList id s h
  | link b r => exact seqAhead_linkBooking b r s h
  | unlink b r => exact seqAhead_unlinkBooking b r s h
  | clear => exact seqAhead_dataClear s
  | bulkImport files => exact seqAhead_dataInsert files s

/-- Every request keeps the stored rooming lists within their `CHECK`s. -/
theorem checksHold_apply (op : Op) (s : Store) (h : s.checksHold) : (op.apply s).checksHold := by
  cases op with
  | createEvent body => exact checksHold_of_eq h (postEvent_frame body s).2.2
  | updateEvent id body => exact checksHold_of_eq h (putEvent_frame id body s).2.2
  | deleteEvent id => exact checksHold_of_eq h (deleteEvent_frame id s).2.2
  | createBooking body => exact checksHold_of_eq h (postBooking_frame body s).2.2
  | updateBooking id body => exact checksHold_of_eq h (putBooking_frame id body s).2.2
  | deleteBooking id =>
    exact checksHold_of_eq h (by
      show (deleteBooking id s).2.roomingLists = s.roomingLists
      rw [deleteBooking_store])
  | createRoomingList body => exact checksHold_postRoomingList body s h
  | updateRoomingList id body => exact checksHold_putRoomingList id body s h
  | deleteRoomingList id => exact checksHold_deleteRoomingList id s h
  | link b r => exact checksHold_of_eq h (linkBooking_roomingLists b r s)
  | unlink b r =>
    exact checksHold_of_eq h (by
      show (unlinkBooking b r s).2.roomingLists = s.roomingLists
      rw [unlinkBooking_store])
  | clear => exact checksHold_dataClear s
  | bulkImport files => exact checksHold_dataInsert files s

/-- Both conditions hold in every store reached from the empty store. -/
theorem reachable_seqAhead_checksHold (ops : List Op) :
    (run ops Store.init).seqAhead ∧ (run ops Store.init).checksHold := by
  have key : ∀ (ops : List Op) (s : Store), s.seqAhead ∧ s.checksHold →
      (run ops s).seqAhead ∧ (run ops s).checksHold := by
    intro ops
    induction ops with
    | nil => exact fun s h => h
    | cons op ops ih =>
      exact fun s h => ih (op.apply s) ⟨seqAhead_apply op s h.1, checksHold_apply op s h.2⟩
  exact key ops Store.init ⟨seqAhead_init, checksHold_init⟩

/-! ## The required-field checks -/

/-- C17: the creation of a booking is answered with the 400 'Missing required
fields' and leaves the store unchanged exactly when one of hotelId, eventId,
guestName, checkInDate, checkOutDate is falsy (missing, null, 0 or the empty
string), and is answered with no 400 exactly when all five are truthy. The
creation of a rooming list is answered with its 'Missing required fields' 400,
store unchanged, exactly when one of eventId, hotelId, rfpName, cutOffDate,
agreement_type is falsy, whatever status and agreement_type are otherwise. -/
theorem required_fields_truthiness (body : BookingBody) (rbody : RoomingListBody) (s : Store) :
    (postBooking body s =
        (.fail 400
          "Missing required fields: hotelId, eventId, guestName, checkInDate, checkOutDate"
          none, s) ↔
      ¬ (body.hotelId.truthyInt = true ∧ body.eventId.truthyInt = true ∧
        body.guestName.truthyStr = true ∧ body.checkInDate.truthyDate = true ∧
        body.checkOutDate.truthyDate = true)) ∧
    ((postBooking body s).1.status ≠ 400 ↔
      (body.hotelId.truthyInt = true ∧ body.eventId.truthyInt = true ∧
        body.guestName.truthyStr = true ∧ body.checkInDate.truthyDate = true ∧
        body.checkOutDate.truthyDate = true)) ∧
    (postRoomingList rbody s =
        (.fail 400
          "Missing required fields: eventId, hotelId, rfpName, cutOffDate, agreement_type"
          none, s) ↔
      ¬ (rbody.eventId.truthyInt = true ∧ rbody.hotelId.truthyInt = true ∧
        rbody.rfpName.truthyStr = true ∧ rbody.cutOffDate.truthyDate = true ∧
        rbody.agreement_type.truthyStr = true)) := by
  refine ⟨?_, ?_, ?_⟩
  · unfold postBooking
    dsimp only
    split_ifs with h1
    · simp only [true_iff]
      intro hall
      simp [hall.1, hall.2.1, hall.2.2.1, hall.2.2.2.1, hall.2.2.2.2] at h1
    · have hall : body.hotelId.truthyInt = true ∧ body.eventId.truthyInt = true ∧
          body.guestName.truthyStr = true ∧ body.checkInDate.truthyDate = true ∧
          body.checkOutDate.truthyDate = true := by
        simpa [not_or, and_assoc] using h1
      repeat' split
      all_goals simp [hall]
  · unfold postBooking
    dsimp only
    split_ifs with h1
    · simp only [Reply.status, ne_eq, not_true_eq_false, false_iff]
      intro hall
      simp [hall.1, hall.2.1, hall.2.2.1, hall.2.2.2.1, hall.2.2.2.2] at h1
    · have hall : body.hotelId.truthyInt = true ∧ body.eventId.truthyInt = true ∧
          body.guestName.truthyStr = true ∧ body.checkInDate.truthyDate = true ∧
          body.checkOutDate.truthyDate = true := by
        simpa [not_or, and_assoc] using h1
      repeat' split
      all_goals simp [hall, Reply.status]
  · unfold postRoomingList
    dsimp only
    split_ifs with h1 h2 h3
    · simp only [true_iff]
      intro hall
      simp [hall.1, hall.2.1, hall.2.2.1, hall.2.2.2.1, hall.2.2.2.2] at h1
    · have hall : rbody.eventId.truthyInt = true ∧ rbody.hotelId.truthyInt = true ∧
          rbody.rfpName.truthyStr = true ∧ rbody.cutOffDate.truthyDate = true ∧
          rbody.agreement_type.truthyStr = true := by
        simpa [not_or, and_assoc] using h1
      simp [hall]
    · have hall : rbody.eventId.truthyInt = true ∧ rbody.hotelId.truthyInt = true ∧
          rbody.rfpName.truthyStr = true ∧ rbody.cutOffDate.truthyDate = true ∧
          rbody.agreement_type.truthyStr = true := by
        simpa [not_or, and_assoc] using h1
      simp [hall]
    · have hall : rbody.eventId.truthyInt = true ∧ rbody.hotelId.truthyInt = true ∧
          rbody.rfpName.truthyStr = true ∧ rbody.cutOffDate.truthyDate = true ∧
          rbody.agreement_type.truthyStr = true := by
        simpa [not_or, and_assoc] using h1
      repeat' split
      all_goals simp [hall]

/-- C17 at a booking body whose hotelId is 0, and at a rooming-list body
whose rfpName is the empty string and whose agreement_type is "vip". -/
theorem required_fields_truthiness_witness :
    postBooking zeroHotelBody sampleStore =
      (.fail 400
        "Missing required fields: hotelId, eventId, guestName, checkInDate, checkOutDate"
        none, sampleStore) ∧
    postRoomingList emptyNameVipBody sampleStore =
      (.fail 400
        "Missing required fields: eventId, hotelId, rfpName, cutOffDate, agreement_type"
        none, sampleStore) :=
  ⟨(required_fields_truthiness zeroHotelBody emptyNameVipBody sampleStore).1.2 (by decide),
   (required_fields_truthiness zeroHotelBody emptyNameVipBody sampleStore).2.2.2 (by decide)⟩
end RoomingListManager
